import Mathlib

/-!
# Daikin air-conditioner controller: mode decision, transition executor, auto-stop

A shallow embedding of `AirConditionerController.cpp`, `AutoStopController.cpp`
and the parts of `TimeManager.cpp` they call, followed by theorems about them.

Conventions of the embedding

* `float` is IEEE-754 binary32.  Every finite binary32 value is an integer
  multiple of `2⁻¹⁴⁹`, so a finite value is held as that integer (`F32.fin n`
  denotes `n · 2⁻¹⁴⁹`); NaN and the two infinities are separate constructors.
  Comparisons follow the C++ operators (every comparison with NaN is false).
  A decimal literal such as `24.2f` is `lit 242 1`: the decimal `242 · 10⁻¹`
  rounded to the nearest binary32 value, ties to even.  `constexpr` additions
  and subtractions round the exact result the same way.
* `Serial.print*` and `delay` have no effect on the modelled state and are left out.
* The infrared library object `IRDaikinESP` is external to the repository; its
  setters are modelled as assignments to the fields of the pending command and
  `send()` as appending the pending command to the log of transmitted frames.
* `getLocalTime` is external; one call of a controller function sees one clock
  reading, `none` when the clock is unavailable.
-/

set_option maxRecDepth 100000

namespace DaikinControl

/-! ## binary32 values -/

/-- IEEE-754 binary32 value; `fin n` is the finite value `n · 2⁻¹⁴⁹`.  The two zeros compare
equal in C++ and are both `fin 0`. -/
inductive F32 where
  | nan : F32
  | negInf : F32
  | fin (n : ℤ) : F32
  | posInf : F32
  deriving DecidableEq

/-- Number of binary digits of `n` (0 for 0), for `n < 2 ^ fuel`. -/
def bitLength : ℕ → ℕ → ℕ
  | 0, _ => 0
  | fuel + 1, n => if n = 0 then 0 else bitLength fuel (n / 2) + 1

/-- The integer nearest to `p / q`, ties to the even one. -/
def roundHalfEven (p q : ℕ) : ℕ :=
  let f := p / q
  let r := p % q
  if 2 * r < q then f
  else if q < 2 * r then f + 1
  else if f % 2 = 0 then f else f + 1

/-- Rounds the non-negative magnitude `p / q` (in units of `2⁻¹⁴⁹`) to a 24-bit significand:
the quantum is one unit for subnormals and `2 ^ (bits - 24)` units above. -/
def roundUnits (p q : ℕ) : ℕ :=
  let s := bitLength 320 (p / q) - 24
  roundHalfEven p (q * 2 ^ s) * 2 ^ s

namespace F32

/-- Round-to-nearest-even of the signed magnitude `p / q` units; overflows to an infinity
at `2 ^ 128`. -/
def round (neg : Bool) (p q : ℕ) : F32 :=
  let m := roundUnits p q
  if 2 ^ 128 * 2 ^ 149 ≤ m then (if neg then negInf else posInf)
  else fin (if neg then -(m : ℤ) else (m : ℤ))

/-- C++ `a < b` on `float`. -/
def lt : F32 → F32 → Bool
  | nan, _ => false
  | _, nan => false
  | negInf, negInf => false
  | negInf, _ => true
  | fin _, negInf => false
  | fin a, fin b => decide (a < b)
  | fin _, posInf => true
  | posInf, _ => false

/-- C++ `a <= b` on `float`. -/
def le : F32 → F32 → Bool
  | nan, _ => false
  | _, nan => false
  | negInf, _ => true
  | fin _, negInf => false
  | fin a, fin b => decide (a ≤ b)
  | fin _, posInf => true
  | posInf, posInf => true
  | posInf, _ => false

/-- C++ `a > b` on `float`. -/
def gt (a b : F32) : Bool := lt b a

/-- C++ `a >= b` on `float`. -/
def ge (a b : F32) : Bool := le b a

/-- C++ `a + b` on `float`. -/
def add : F32 → F32 → F32
  | nan, _ => nan
  | _, nan => nan
  | posInf, negInf => nan
  | negInf, posInf => nan
  | posInf, _ => posInf
  | _, posInf => posInf
  | negInf, _ => negInf
  | _, negInf => negInf
  | fin a, fin b => round (decide (a + b < 0)) (a + b).natAbs 1

/-- C++ unary minus on `float`. -/
def neg : F32 → F32
  | nan => nan
  | negInf => posInf
  | fin a => fin (-a)
  | posInf => negInf

/-- C++ `a - b` on `float`. -/
def sub (a b : F32) : F32 := add a (neg b)

end F32

/-- The `float` literal with decimal digits `m` and `k` digits after the point:
`lit 242 1` is `24.2f`. -/
def lit (m : ℤ) (k : ℕ) : F32 :=
  F32.round (decide (m < 0)) (m.natAbs * 2 ^ 149) (10 ^ k)

/-! ## `AirConditionerController.h`: enumerations -/

/-- Source `enum class Season`. -/
inductive Season where
  | SPRING
  | SUMMER
  | AUTUMN
  | WINTER
  deriving DecidableEq

/-- Source `enum class TimeOfDay`. -/
inductive TimeOfDay where
  | DAYTIME
  | NIGHT
  deriving DecidableEq

/-- Source `enum class ACMode`; `NONE` is the value before the first command. -/
inductive ACMode where
  | NONE
  | OFF
  | HEATING_23_5
  | HEATING_18
  | COOLING_25
  | DEHUMID_MINUS_1_5
  deriving DecidableEq

/-! ## `namespace Threshold` of `AirConditionerController.cpp` -/

namespace Threshold

/-- `constexpr float TEMP_LOWER = 24.2f`. -/
def TEMP_LOWER : F32 := lit 242 1

/-- `constexpr float TEMP_UPPER = 26.5f`. -/
def TEMP_UPPER : F32 := lit 265 1

/-- `constexpr float TEMP_HYSTERESIS = 0.3f`. -/
def TEMP_HYSTERESIS : F32 := lit 3 1

/-- `constexpr float TEMP_LOWER_OFF = TEMP_LOWER + TEMP_HYSTERESIS`. -/
def TEMP_LOWER_OFF : F32 := F32.add TEMP_LOWER TEMP_HYSTERESIS

/-- `constexpr float TEMP_UPPER_OFF = TEMP_UPPER - TEMP_HYSTERESIS`. -/
def TEMP_UPPER_OFF : F32 := F32.sub TEMP_UPPER TEMP_HYSTERESIS

/-- `constexpr float HUMIDITY_LOWER = 40.0f`. -/
def HUMIDITY_LOWER : F32 := lit 400 1

/-- `constexpr float HUMIDITY_UPPER = 62.0f`. -/
def HUMIDITY_UPPER : F32 := lit 620 1

/-- `constexpr float HUMIDITY_HIGH = 65.0f`. -/
def HUMIDITY_HIGH : F32 := lit 650 1

/-- `constexpr float HUMIDITY_VERY_HIGH = 70.0f`. -/
def HUMIDITY_VERY_HIGH : F32 := lit 700 1

end Threshold

/-! ## `TimeManager` -/

/-- The fields of `struct tm` the controllers read: month `0..11` and hour `0..23`. -/
structure Tm where
  tm_mon : ℤ
  tm_hour : ℤ
  deriving DecidableEq

/-- The clock as the controllers see it: `localTime` is the result of `getLocalTime`,
`none` when it fails. -/
structure TimeManager where
  localTime : Option Tm
  deriving DecidableEq

namespace TimeManager

/-- `TimeManager::getCurrentTime`. -/
def getCurrentTime (t : TimeManager) : Option Tm := t.localTime

/-- `TimeManager::getCurrentHour`: `-1` on failure. -/
def getCurrentHour (t : TimeManager) : ℤ :=
  match t.getCurrentTime with
  | none => -1
  | some timeinfo => timeinfo.tm_hour

/-- `TimeManager::getCurrentMonth`: `-1` on failure, else `tm_mon + 1`. -/
def getCurrentMonth (t : TimeManager) : ℤ :=
  match t.getCurrentTime with
  | none => -1
  | some timeinfo => timeinfo.tm_mon + 1

/-- `TimeManager::isSummerSeason`: months 7 to 9. -/
def isSummerSeason (t : TimeManager) : Bool :=
  let month := t.getCurrentMonth
  if month = -1 then false
  else decide (month ≥ 7 ∧ month ≤ 9)

end TimeManager

/-- The clock reading of hour `hour` in month `month` (1-based). -/
def clockAt (hour month : ℤ) : TimeManager :=
  { localTime := some { tm_mon := month - 1, tm_hour := hour } }

/-! ## `WeatherData` -/

/-- Source `struct WeatherData` (the display string and update stamp are not read by
the controller). -/
structure WeatherData where
  isValid : Bool
  tempMax : F32
  tempMin : F32
  weatherCode : ℤ
  deriving DecidableEq

/-! ## The infrared command object -/

/-- Operating modes of the Daikin protocol named by the library. -/
inductive DaikinMode where
  | kDaikinAuto
  | kDaikinDry
  | kDaikinCool
  | kDaikinHeat
  | kDaikinFan
  deriving DecidableEq

/-- Fan settings of the Daikin protocol named by the library. -/
inductive DaikinFan where
  | kDaikinFanAuto
  | kDaikinFanQuiet
  | kDaikinFanMin
  | kDaikinFanMed
  | kDaikinFanMax
  deriving DecidableEq

/-- The pending command held by an `IRDaikinESP` object. -/
structure IRDaikinESP where
  power : Bool
  mode : DaikinMode
  temp : F32
  fan : DaikinFan
  swingVertical : Bool
  swingHorizontal : Bool
  deriving DecidableEq

/-! ## `AirConditionerController` -/

/-- State of an `AirConditionerController`: the pending infrared command, whether the
receiver is enabled, the believed actuator mode, and the frames transmitted so far
(oldest first). -/
structure AirConditionerController where
  daikinAC_ : IRDaikinESP
  irRecvEnabled : Bool
  currentMode_ : ACMode
  sentFrames : List IRDaikinESP
  deriving DecidableEq

namespace AirConditionerController

/-- `daikinAC_.send()`: the pending command goes on the air. -/
def daikinSend (c : AirConditionerController) : AirConditionerController :=
  { c with sentFrames := c.sentFrames ++ [c.daikinAC_] }

/-- `AirConditionerController::sendOff`. -/
def sendOff (c : AirConditionerController) : AirConditionerController :=
  let c := { c with irRecvEnabled := false }
  let c := { c with daikinAC_ := { c.daikinAC_ with power := false } }
  let c := c.daikinSend
  { c with irRecvEnabled := true }

/-- `AirConditionerController::sendHeating23_5`. -/
def sendHeating23_5 (c : AirConditionerController) : AirConditionerController :=
  let c := { c with irRecvEnabled := false }
  let c := { c with daikinAC_ := { c.daikinAC_ with power := true } }
  let c := { c with daikinAC_ := { c.daikinAC_ with mode := DaikinMode.kDaikinHeat } }
  let c := { c with daikinAC_ := { c.daikinAC_ with temp := lit 235 1 } }
  let c := { c with daikinAC_ := { c.daikinAC_ with fan := DaikinFan.kDaikinFanAuto } }
  let c := { c with daikinAC_ := { c.daikinAC_ with swingVertical := false } }
  let c := { c with daikinAC_ := { c.daikinAC_ with swingHorizontal := false } }
  let c := c.daikinSend
  { c with irRecvEnabled := true }

/-- `AirConditionerController::sendHeating18`. -/
def sendHeating18 (c : AirConditionerController) : AirConditionerController :=
  let c := { c with irRecvEnabled := false }
  let c := { c with daikinAC_ := { c.daikinAC_ with power := true } }
  let c := { c with daikinAC_ := { c.daikinAC_ with mode := DaikinMode.kDaikinHeat } }
  let c := { c with daikinAC_ := { c.daikinAC_ with temp := lit 18 0 } }
  let c := { c with daikinAC_ := { c.daikinAC_ with fan := DaikinFan.kDaikinFanAuto } }
  let c := { c with daikinAC_ := { c.daikinAC_ with swingVertical := false } }
  let c := { c with daikinAC_ := { c.daikinAC_ with swingHorizontal := false } }
  let c := c.daikinSend
  { c with irRecvEnabled := true }

/-- `AirConditionerController::sendCooling25`. -/
def sendCooling25 (c : AirConditionerController) : AirConditionerController :=
  let c := { c with irRecvEnabled := false }
  let c := { c with daikinAC_ := { c.daikinAC_ with power := true } }
  let c := { c with daikinAC_ := { c.daikinAC_ with mode := DaikinMode.kDaikinCool } }
  let c := { c with daikinAC_ := { c.daikinAC_ with temp := lit 25 0 } }
  let c := { c with daikinAC_ := { c.daikinAC_ with fan := DaikinFan.kDaikinFanAuto } }
  let c := { c with daikinAC_ := { c.daikinAC_ with swingVertical := false } }
  let c := { c with daikinAC_ := { c.daikinAC_ with swingHorizontal := false } }
  let c := c.daikinSend
  { c with irRecvEnabled := true }

/-- `AirConditionerController::sendDehumidMinus1_5` (the source passes `24.5`). -/
def sendDehumidMinus1_5 (c : AirConditionerController) : AirConditionerController :=
  let c := { c with irRecvEnabled := false }
  let c := { c with daikinAC_ := { c.daikinAC_ with power := true } }
  let c := { c with daikinAC_ := { c.daikinAC_ with mode := DaikinMode.kDaikinDry } }
  let c := { c with daikinAC_ := { c.daikinAC_ with temp := lit 245 1 } }
  let c := { c with daikinAC_ := { c.daikinAC_ with fan := DaikinFan.kDaikinFanAuto } }
  let c := { c with daikinAC_ := { c.daikinAC_ with swingVertical := false } }
  let c := { c with daikinAC_ := { c.daikinAC_ with swingHorizontal := false } }
  let c := c.daikinSend
  { c with irRecvEnabled := true }

/-- The constructor: `currentMode_(ACMode::NONE)`; the library object starts in the state
`daikin`, nothing has been transmitted and the receiver is not yet enabled. -/
def init (daikin : IRDaikinESP) : AirConditionerController :=
  { daikinAC_ := daikin, irRecvEnabled := false, currentMode_ := ACMode.NONE, sentFrames := [] }

/-- `AirConditionerController::begin`. -/
def begin (c : AirConditionerController) : AirConditionerController :=
  { c with irRecvEnabled := true }

/-- `AirConditionerController::setMode`. -/
def setMode (c : AirConditionerController) (mode : ACMode) : AirConditionerController :=
  if mode = c.currentMode_ then c
  else if mode = ACMode.OFF ∧ c.currentMode_ = ACMode.OFF then c
  else
    match mode with
    | ACMode.OFF => { c.sendOff with currentMode_ := mode }
    | ACMode.HEATING_23_5 => { c.sendHeating23_5 with currentMode_ := mode }
    | ACMode.HEATING_18 => { c.sendHeating18 with currentMode_ := mode }
    | ACMode.COOLING_25 => { c.sendCooling25 with currentMode_ := mode }
    | ACMode.DEHUMID_MINUS_1_5 => { c.sendDehumidMinus1_5 with currentMode_ := mode }
    | ACMode.NONE => c

/-- `AirConditionerController::getCurrentSeason`. -/
def getCurrentSeason (month : ℤ) : Season :=
  if month ≥ 3 ∧ month ≤ 5 then Season.SPRING
  else if month ≥ 6 ∧ month ≤ 9 then Season.SUMMER
  else if month ≥ 10 ∧ month ≤ 11 then Season.AUTUMN
  else Season.WINTER

/-- `AirConditionerController::getTimeOfDay`. -/
def getTimeOfDay (hour : ℤ) : TimeOfDay :=
  if hour ≥ 7 ∧ hour < 23 then TimeOfDay.DAYTIME
  else TimeOfDay.NIGHT

/-- `AirConditionerController::isExtremeColdDay`. -/
def isExtremeColdDay (weather : WeatherData) : Bool :=
  if !weather.isValid then false
  else F32.le weather.tempMin (lit 0 1)

/-- `AirConditionerController::determineSpringMode`. -/
def determineSpringMode (c : AirConditionerController) (temperature _humidity : F32)
    (timeOfDay : TimeOfDay) : ACMode :=
  if timeOfDay = TimeOfDay.NIGHT then ACMode.OFF
  else if F32.lt temperature Threshold.TEMP_LOWER then ACMode.HEATING_23_5
  else if c.currentMode_ = ACMode.HEATING_23_5 ∧ F32.lt temperature Threshold.TEMP_LOWER_OFF then
    ACMode.HEATING_23_5
  else if F32.gt temperature Threshold.TEMP_UPPER then ACMode.COOLING_25
  else if c.currentMode_ = ACMode.COOLING_25 ∧ F32.gt temperature Threshold.TEMP_UPPER_OFF then
    ACMode.COOLING_25
  else ACMode.OFF

/-- `AirConditionerController::determineSummerMode`.  The source's nested test
`if (currentMode_ == DEHUMID_MINUS_1_5) { if (a && b) return ...; }` falls through when either
test fails, which is the conjunction written here; the last `else` is the final
`return ACMode::OFF`. -/
def determineSummerMode (c : AirConditionerController) (temperature humidity : F32) : ACMode :=
  if F32.lt temperature Threshold.TEMP_LOWER then ACMode.OFF
  else if c.currentMode_ = ACMode.COOLING_25 ∧ F32.gt temperature Threshold.TEMP_UPPER_OFF then
    ACMode.COOLING_25
  else if c.currentMode_ = ACMode.DEHUMID_MINUS_1_5 ∧
      (F32.gt temperature Threshold.TEMP_UPPER_OFF ∧ F32.gt humidity Threshold.HUMIDITY_UPPER) then
    ACMode.DEHUMID_MINUS_1_5
  else if F32.gt temperature Threshold.TEMP_UPPER then ACMode.COOLING_25
  else if F32.ge temperature Threshold.TEMP_LOWER ∧ F32.le temperature Threshold.TEMP_UPPER then
    if F32.gt humidity Threshold.HUMIDITY_UPPER then ACMode.DEHUMID_MINUS_1_5
    else ACMode.OFF
  else ACMode.OFF

/-- `AirConditionerController::determineAutumnMode`. -/
def determineAutumnMode (c : AirConditionerController) (temperature _humidity : F32)
    (timeOfDay : TimeOfDay) : ACMode :=
  if timeOfDay = TimeOfDay.NIGHT then ACMode.OFF
  else if F32.lt temperature Threshold.TEMP_LOWER then ACMode.HEATING_23_5
  else if c.currentMode_ = ACMode.HEATING_23_5 ∧ F32.lt temperature Threshold.TEMP_LOWER_OFF then
    ACMode.HEATING_23_5
  else if F32.gt temperature Threshold.TEMP_UPPER then ACMode.COOLING_25
  else if c.currentMode_ = ACMode.COOLING_25 ∧ F32.gt temperature Threshold.TEMP_UPPER_OFF then
    ACMode.COOLING_25
  else ACMode.OFF

/-- `AirConditionerController::determineWinterMode`. -/
def determineWinterMode (c : AirConditionerController) (temperature _humidity : F32)
    (timeOfDay : TimeOfDay) (isExtremeCold : Bool) : ACMode :=
  if timeOfDay = TimeOfDay.NIGHT ∧ isExtremeCold then ACMode.HEATING_18
  else if timeOfDay = TimeOfDay.NIGHT then ACMode.OFF
  else if F32.lt temperature Threshold.TEMP_LOWER then ACMode.HEATING_23_5
  else if c.currentMode_ = ACMode.HEATING_23_5 ∧ F32.lt temperature Threshold.TEMP_LOWER_OFF then
    ACMode.HEATING_23_5
  else if F32.ge temperature Threshold.TEMP_LOWER_OFF ∧ F32.le temperature Threshold.TEMP_UPPER then
    ACMode.OFF
  else ACMode.OFF

/-- `AirConditionerController::determineOptimalMode`; the previous mode is the
controller's `currentMode_`. -/
def determineOptimalMode (c : AirConditionerController) (temperature humidity : F32)
    (timeMgr : TimeManager) (weather : WeatherData) : ACMode :=
  match timeMgr.getCurrentTime with
  | none => ACMode.OFF
  | some timeinfo =>
    let month := timeinfo.tm_mon + 1
    let hour := timeinfo.tm_hour
    let season := getCurrentSeason month
    let timeOfDay := getTimeOfDay hour
    let isExtremeCold := isExtremeColdDay weather
    match season with
    | Season.SPRING => c.determineSpringMode temperature humidity timeOfDay
    | Season.SUMMER => c.determineSummerMode temperature humidity
    | Season.AUTUMN => c.determineAutumnMode temperature humidity timeOfDay
    | Season.WINTER => c.determineWinterMode temperature humidity timeOfDay isExtremeCold

end AirConditionerController

/-! ## `AutoStopController` -/

/-- Fields of an `AutoStopController` (the controller and clock it refers to are passed
to `check`). -/
structure AutoStopController where
  stopHour_ : ℤ
  enabled_ : Bool
  stoppedToday_ : Bool
  lastPrintedHour_ : ℤ
  deriving DecidableEq

/-- Result of one `AutoStopController::check`: the returned flag and the two objects
afterwards. -/
structure CheckResult where
  fired : Bool
  scheduler : AutoStopController
  ac : AirConditionerController
  deriving DecidableEq

namespace AutoStopController

/-- The constructor: enabled, not yet stopped, nothing printed. -/
def init (stopHour : ℤ) : AutoStopController :=
  { stopHour_ := stopHour, enabled_ := true, stoppedToday_ := false, lastPrintedHour_ := -1 }

/-- `AutoStopController::check`. -/
def check (s : AutoStopController) (ac : AirConditionerController) (timeMgr : TimeManager) :
    CheckResult :=
  if !s.enabled_ then { fired := false, scheduler := s, ac := ac }
  else
    let currentHour := timeMgr.getCurrentHour
    let currentMonth := timeMgr.getCurrentMonth
    if currentHour = -1 ∨ currentMonth = -1 then { fired := false, scheduler := s, ac := ac }
    else
      let s := if currentHour ≠ s.lastPrintedHour_ then { s with lastPrintedHour_ := currentHour }
        else s
      if timeMgr.isSummerSeason then
        { fired := false, scheduler := { s with stoppedToday_ := false }, ac := ac }
      else if currentHour = s.stopHour_ ∧ !s.stoppedToday_ then
        { fired := true, scheduler := { s with stoppedToday_ := true },
          ac := ac.setMode ACMode.OFF }
      else if currentHour = 0 then
        { fired := false, scheduler := { s with stoppedToday_ := false }, ac := ac }
      else { fired := false, scheduler := s, ac := ac }

/-- `AutoStopController::setEnabled`. -/
def setEnabled (s : AutoStopController) (enabled : Bool) : AutoStopController :=
  { s with enabled_ := enabled }

/-- Successive calls of `check` at the given clock readings: the returned flags in call
order, and the objects after the last call. -/
def runChecks (s : AutoStopController) (ac : AirConditionerController) :
    List TimeManager → List Bool × AutoStopController × AirConditionerController
  | [] => ([], s, ac)
  | t :: ts =>
    let r := s.check ac t
    let rest := runChecks r.scheduler r.ac ts
    (r.fired :: rest.1, rest.2)

end AutoStopController

/-! ## Sample values used to instantiate the theorems -/

/-- A library object whose pending command is a powered-off automatic-mode frame. -/
def sampleDaikin : IRDaikinESP :=
  { power := false, mode := DaikinMode.kDaikinAuto, temp := lit 25 0,
    fan := DaikinFan.kDaikinFanAuto, swingVertical := false, swingHorizontal := false }

/-- A controller right after construction and `begin()`. -/
def freshController : AirConditionerController :=
  (AirConditionerController.init sampleDaikin).begin

/-- A controller that believes the actuator is in mode `m`. -/
def controllerIn (m : ACMode) : AirConditionerController :=
  { freshController with currentMode_ := m }

/-- The forecast before the first successful fetch, as the `WeatherForecast` constructor
sets it: not valid, both temperatures `0.0f`, weather code 0. -/
def noForecast : WeatherData :=
  { isValid := false, tempMax := lit 0 1, tempMin := lit 0 1, weatherCode := 0 }

/-- A valid forecast with the given minimum temperature. -/
def forecastMin (tempMin : F32) : WeatherData :=
  { isValid := true, tempMax := lit 100 1, tempMin := tempMin, weatherCode := 0 }

/-! ## The rule lists of the specification, written from its words -/

/-- Comfort-band list (Spring and Autumn daytime), first match wins:
(1) temperature < 24.2 gives Heat-High; (2) previous Heat-High and temperature < 24.5 gives
Heat-High; (3) temperature > 26.5 gives Cool; (4) previous Cool and temperature > 26.2 gives
Cool; (5) otherwise Off. -/
def comfortBandRule (temperature : F32) (previous : ACMode) : ACMode :=
  if F32.lt temperature (lit 242 1) then ACMode.HEATING_23_5
  else if previous = ACMode.HEATING_23_5 ∧ F32.lt temperature (lit 245 1) then
    ACMode.HEATING_23_5
  else if F32.gt temperature (lit 265 1) then ACMode.COOLING_25
  else if previous = ACMode.COOLING_25 ∧ F32.gt temperature (lit 262 1) then ACMode.COOLING_25
  else ACMode.OFF

/-- Summer list, first match wins: (1) temperature < 24.2 gives Off; (2) previous Cool and
temperature > 26.2 gives Cool; (3) previous Dehumidify, temperature > 26.2 and humidity > 62.0
gives Dehumidify; (4) temperature > 26.5 gives Cool; (5) 24.2 <= temperature <= 26.5 and
humidity > 62.0 gives Dehumidify; (6) otherwise Off. -/
def summerRule (temperature humidity : F32) (previous : ACMode) : ACMode :=
  if F32.lt temperature (lit 242 1) then ACMode.OFF
  else if previous = ACMode.COOLING_25 ∧ F32.gt temperature (lit 262 1) then ACMode.COOLING_25
  else if previous = ACMode.DEHUMID_MINUS_1_5 ∧ F32.gt temperature (lit 262 1) ∧
      F32.gt humidity (lit 620 1) then ACMode.DEHUMID_MINUS_1_5
  else if F32.gt temperature (lit 265 1) then ACMode.COOLING_25
  else if F32.le (lit 242 1) temperature ∧ F32.le temperature (lit 265 1) ∧
      F32.gt humidity (lit 620 1) then ACMode.DEHUMID_MINUS_1_5
  else ACMode.OFF

/-- Winter daytime rule: Heat-High when temperature < 24.2 or (previous Heat-High and
temperature < 24.5), otherwise Off. -/
def winterDayRule (temperature : F32) (previous : ACMode) : ACMode :=
  if F32.lt temperature (lit 242 1) = true ∨
      (previous = ACMode.HEATING_23_5 ∧ F32.lt temperature (lit 245 1) = true) then
    ACMode.HEATING_23_5
  else ACMode.OFF

/-- The hour is Night: before 7 or from 23 on. -/
def isNightHour (hour : ℤ) : Prop := hour < 7 ∨ hour ≥ 23

instance (hour : ℤ) : Decidable (isNightHour hour) := by
  unfold isNightHour
  infer_instance

/-- The forecast is extreme cold: valid with minimum temperature at most 0.0. -/
def extremeCold (weather : WeatherData) : Prop :=
  weather.isValid = true ∧ F32.le weather.tempMin (lit 0 1) = true

instance (weather : WeatherData) : Decidable (extremeCold weather) := by
  unfold extremeCold
  infer_instance

/-- The frame is the actuator command of mode `m`: power-off for Off, heating at 23.5 for
Heat-High, heating at 18 for Heat-Max, cooling at 25 for Cool, dry mode for Dehumidify. -/
def commandFor (m : ACMode) (frame : IRDaikinESP) : Prop :=
  match m with
  | ACMode.NONE => False
  | ACMode.OFF => frame.power = false
  | ACMode.HEATING_23_5 =>
    frame.power = true ∧ frame.mode = DaikinMode.kDaikinHeat ∧ frame.temp = lit 235 1
  | ACMode.HEATING_18 =>
    frame.power = true ∧ frame.mode = DaikinMode.kDaikinHeat ∧ frame.temp = lit 18 0
  | ACMode.COOLING_25 =>
    frame.power = true ∧ frame.mode = DaikinMode.kDaikinCool ∧ frame.temp = lit 25 0
  | ACMode.DEHUMID_MINUS_1_5 => frame.power = true ∧ frame.mode = DaikinMode.kDaikinDry

instance (m : ACMode) (frame : IRDaikinESP) : Decidable (commandFor m frame) := by
  unfold commandFor
  cases m <;> infer_instance

/-- The transition table of the scheduler on `tick(hour, month)`, evaluated in order: not
enabled; clock unavailable; bypass month; stop hour reached and not yet stopped; hour 0;
otherwise.  The result is (fired, `stoppedToday` afterwards, the controller afterwards). -/
def tickRule (s : AutoStopController) (ac : AirConditionerController) (hour month : ℤ) :
    Bool × Bool × AirConditionerController :=
  if s.enabled_ = false then (false, s.stoppedToday_, ac)
  else if hour = -1 ∨ month = -1 then (false, s.stoppedToday_, ac)
  else if month = 7 ∨ month = 8 ∨ month = 9 then (false, false, ac)
  else if hour = s.stopHour_ ∧ s.stoppedToday_ = false then (true, true, ac.setMode ACMode.OFF)
  else if hour = 0 then (false, false, ac)
  else (false, s.stoppedToday_, ac)

/-- The clock readings of successive ticks at the given hours of one month. -/
def ticksAt (month : ℤ) (hours : List ℤ) : List TimeManager :=
  hours.map (fun hour => clockAt hour month)

/-! ## The driver (`main.cpp`) -/

/-- Source `struct SensorData`. -/
structure SensorData where
  temperature : F32
  humidity : F32
  discomfortIndex : F32
  isValid : Bool
  deriving DecidableEq

/-- The control part of one pass of `loop()` in which the control interval has elapsed: an
invalid sensor reading skips the pass, otherwise `determineOptimalMode` is followed by
`setMode`.  The display, the receiver dump and the forecast refresh do not touch the
controller's mode or its transmissions and are left out. -/
def loopControl (airConditioner : AirConditionerController) (sensorData : SensorData)
    (timeMgr : TimeManager) (weatherData : WeatherData) : AirConditionerController :=
  if !sensorData.isValid then airConditioner
  else
    let optimalMode := airConditioner.determineOptimalMode sensorData.temperature
      sensorData.humidity timeMgr weatherData
    airConditioner.setMode optimalMode

/-- The clock when `getLocalTime` fails. -/
def clockUnavailable : TimeManager := { localTime := none }

/-- A valid sensor reading. -/
def reading (temperature humidity : F32) : SensorData :=
  { temperature := temperature, humidity := humidity, discomfortIndex := lit 0 1,
    isValid := true }

/-- The full command profile of mode `m`, with the Dehumidify setpoint as a parameter:
power-off for Off; heating at 23.5 for Heat-High; heating at 18 for Heat-Max; cooling at 25
for Cool; dry mode at `dehumidSetpoint` for Dehumidify; every running command with automatic
fan and both swings off. -/
def profileWith (dehumidSetpoint : F32) (m : ACMode) (frame : IRDaikinESP) : Prop :=
  match m with
  | ACMode.NONE => False
  | ACMode.OFF => frame.power = false
  | ACMode.HEATING_23_5 =>
    frame.power = true ∧ frame.mode = DaikinMode.kDaikinHeat ∧ frame.temp = lit 235 1 ∧
      frame.fan = DaikinFan.kDaikinFanAuto ∧ frame.swingVertical = false ∧
      frame.swingHorizontal = false
  | ACMode.HEATING_18 =>
    frame.power = true ∧ frame.mode = DaikinMode.kDaikinHeat ∧ frame.temp = lit 18 0 ∧
      frame.fan = DaikinFan.kDaikinFanAuto ∧ frame.swingVertical = false ∧
      frame.swingHorizontal = false
  | ACMode.COOLING_25 =>
    frame.power = true ∧ frame.mode = DaikinMode.kDaikinCool ∧ frame.temp = lit 25 0 ∧
      frame.fan = DaikinFan.kDaikinFanAuto ∧ frame.swingVertical = false ∧
      frame.swingHorizontal = false
  | ACMode.DEHUMID_MINUS_1_5 =>
    frame.power = true ∧ frame.mode = DaikinMode.kDaikinDry ∧ frame.temp = dehumidSetpoint ∧
      frame.fan = DaikinFan.kDaikinFanAuto ∧ frame.swingVertical = false ∧
      frame.swingHorizontal = false

instance (dehumidSetpoint : F32) (m : ACMode) (frame : IRDaikinESP) :
    Decidable (profileWith dehumidSetpoint m frame) := by
  unfold profileWith
  cases m <;> infer_instance

/-- `n` successive control passes of `loop()` on unchanged inputs. -/
def loopControlTimes : ℕ → AirConditionerController → SensorData → TimeManager → WeatherData →
    AirConditionerController
  | 0, airConditioner, _, _, _ => airConditioner
  | n + 1, airConditioner, sensorData, timeMgr, weatherData =>
    loopControlTimes n (loopControl airConditioner sensorData timeMgr weatherData) sensorData
      timeMgr weatherData

/-! ## Values of the thresholds -/

/-- `24.2f` is the bit pattern `0x41C1999A`: significand `0xC1999A = 12687770`, quantum
`2⁻¹⁹`. -/
theorem TEMP_LOWER_value : Threshold.TEMP_LOWER = F32.fin (12687770 * 2 ^ 130) := by decide

/-- `26.5f` is exact: `53 / 2`. -/
theorem TEMP_UPPER_value : Threshold.TEMP_UPPER = F32.fin (53 * 2 ^ 148) := by decide

/-- `0.3f` is the bit pattern `0x3E99999A`: significand `0x99999A = 10066330`, quantum
`2⁻²⁵`. -/
theorem TEMP_HYSTERESIS_value : Threshold.TEMP_HYSTERESIS = F32.fin (10066330 * 2 ^ 124) := by
  decide

/-- `24.2f + 0.3f` rounds to exactly `24.5 = 49 / 2`. -/
theorem TEMP_LOWER_OFF_value : Threshold.TEMP_LOWER_OFF = F32.fin (49 * 2 ^ 148) := by decide

/-- `26.5f - 0.3f` rounds to `0x41D1999A`, the binary32 value nearest to 26.2. -/
theorem TEMP_UPPER_OFF_value : Threshold.TEMP_UPPER_OFF = F32.fin (13736346 * 2 ^ 130) := by
  decide

/-- `62.0f` is exact. -/
theorem HUMIDITY_UPPER_value : Threshold.HUMIDITY_UPPER = F32.fin (62 * 2 ^ 149) := by decide

theorem TEMP_LOWER_eq_lit : Threshold.TEMP_LOWER = lit 242 1 := rfl

theorem TEMP_UPPER_eq_lit : Threshold.TEMP_UPPER = lit 265 1 := rfl

theorem HUMIDITY_UPPER_eq_lit : Threshold.HUMIDITY_UPPER = lit 620 1 := rfl

theorem TEMP_LOWER_OFF_eq_lit : Threshold.TEMP_LOWER_OFF = lit 245 1 := by decide

theorem TEMP_UPPER_OFF_eq_lit : Threshold.TEMP_UPPER_OFF = lit 262 1 := by decide

/-! ## Helper lemmas -/

open AirConditionerController

theorem F32.lt_of_lt_of_le (t a b : F32) (h : F32.lt t a = true) (hab : F32.le a b = true) :
    F32.lt t b = true := by
  cases t <;> cases a <;> cases b <;> simp [F32.lt, F32.le] at h hab ⊢
  omega

theorem F32.lt_of_le_of_lt (t a b : F32) (h : F32.le t a = true) (hab : F32.lt a b = true) :
    F32.lt t b = true := by
  cases t <;> cases a <;> cases b <;> simp [F32.lt, F32.le] at h hab ⊢
  omega

theorem F32.lt_false_of_ge (t a b : F32) (h : F32.ge t a = true) (hab : F32.le b a = true) :
    F32.lt t b = false := by
  cases t <;> cases a <;> cases b <;> simp [F32.lt, F32.le, F32.ge] at h hab ⊢
  omega

theorem F32.lt_false_of_gt (t a b : F32) (h : F32.gt t a = true) (hab : F32.le b a = true) :
    F32.lt t b = false := by
  cases t <;> cases a <;> cases b <;> simp [F32.lt, F32.le, F32.gt] at h hab ⊢
  omega

theorem getCurrentSeason_shoulder (month : ℤ)
    (hm : month = 3 ∨ month = 4 ∨ month = 5 ∨ month = 10 ∨ month = 11) :
    getCurrentSeason month = Season.SPRING ∨ getCurrentSeason month = Season.AUTUMN := by
  rcases hm with h | h | h | h | h <;> subst h <;> decide

theorem getCurrentSeason_summer (month : ℤ)
    (hm : month = 6 ∨ month = 7 ∨ month = 8 ∨ month = 9) :
    getCurrentSeason month = Season.SUMMER := by
  rcases hm with h | h | h | h <;> subst h <;> decide

theorem getCurrentSeason_winter (month : ℤ) (hm : month = 12 ∨ month = 1 ∨ month = 2) :
    getCurrentSeason month = Season.WINTER := by
  rcases hm with h | h | h <;> subst h <;> decide

theorem determineOptimalMode_clockAt (c : AirConditionerController) (temperature humidity : F32)
    (hour month : ℤ) (weather : WeatherData) :
    c.determineOptimalMode temperature humidity (clockAt hour month) weather =
      match getCurrentSeason month with
      | Season.SPRING => c.determineSpringMode temperature humidity (getTimeOfDay hour)
      | Season.SUMMER => c.determineSummerMode temperature humidity
      | Season.AUTUMN => c.determineAutumnMode temperature humidity (getTimeOfDay hour)
      | Season.WINTER =>
        c.determineWinterMode temperature humidity (getTimeOfDay hour) (isExtremeColdDay weather) := by
  simp only [determineOptimalMode, clockAt, TimeManager.getCurrentTime, sub_add_cancel]

theorem determineAutumnMode_eq_spring (c : AirConditionerController) (temperature humidity : F32)
    (timeOfDay : TimeOfDay) :
    c.determineAutumnMode temperature humidity timeOfDay =
      c.determineSpringMode temperature humidity timeOfDay := rfl

theorem getTimeOfDay_night_iff (hour : ℤ) :
    getTimeOfDay hour = TimeOfDay.NIGHT ↔ isNightHour hour := by
  unfold getTimeOfDay isNightHour
  split_ifs with h
  · constructor
    · intro h'; cases h'
    · intro h'; omega
  · constructor
    · intro _; omega
    · intro _; rfl

theorem isExtremeColdDay_iff (weather : WeatherData) :
    isExtremeColdDay weather = true ↔ extremeCold weather := by
  unfold isExtremeColdDay extremeCold
  cases weather.isValid <;> simp

theorem determineSpringMode_eq_rule (c : AirConditionerController) (temperature humidity : F32)
    (hour : ℤ) :
    c.determineSpringMode temperature humidity (getTimeOfDay hour) =
      if isNightHour hour then ACMode.OFF else comfortBandRule temperature c.currentMode_ := by
  unfold determineSpringMode comfortBandRule
  rw [TEMP_LOWER_OFF_eq_lit, TEMP_UPPER_OFF_eq_lit, TEMP_LOWER_eq_lit, TEMP_UPPER_eq_lit]
  simp only [getTimeOfDay_night_iff]

theorem determineSummerMode_eq_rule (c : AirConditionerController) (temperature humidity : F32) :
    c.determineSummerMode temperature humidity =
      summerRule temperature humidity c.currentMode_ := by
  unfold determineSummerMode summerRule
  rw [TEMP_UPPER_OFF_eq_lit, TEMP_LOWER_eq_lit, TEMP_UPPER_eq_lit, HUMIDITY_UPPER_eq_lit]
  simp only [F32.ge]
  split_ifs <;> simp_all

theorem determineWinterMode_eq_rule (c : AirConditionerController) (temperature humidity : F32)
    (hour : ℤ) (weather : WeatherData) :
    c.determineWinterMode temperature humidity (getTimeOfDay hour) (isExtremeColdDay weather) =
      if isNightHour hour then (if extremeCold weather then ACMode.HEATING_18 else ACMode.OFF)
      else winterDayRule temperature c.currentMode_ := by
  unfold determineWinterMode winterDayRule
  rw [TEMP_LOWER_OFF_eq_lit, TEMP_LOWER_eq_lit, TEMP_UPPER_eq_lit]
  simp only [getTimeOfDay_night_iff, isExtremeColdDay_iff]
  split_ifs <;> simp_all

theorem shoulder_decision_eq (c : AirConditionerController) (temperature humidity : F32)
    (hour month : ℤ) (weather : WeatherData)
    (hm : month = 3 ∨ month = 4 ∨ month = 5 ∨ month = 10 ∨ month = 11) :
    c.determineOptimalMode temperature humidity (clockAt hour month) weather =
      (if isNightHour hour then ACMode.OFF else comfortBandRule temperature c.currentMode_) := by
  rw [determineOptimalMode_clockAt]
  rcases getCurrentSeason_shoulder month hm with h | h <;> rw [h]
  · exact determineSpringMode_eq_rule c temperature humidity hour
  · show c.determineAutumnMode temperature humidity (getTimeOfDay hour) = _
    rw [determineAutumnMode_eq_spring]
    exact determineSpringMode_eq_rule c temperature humidity hour

theorem summer_decision_eq (c : AirConditionerController) (temperature humidity : F32)
    (hour month : ℤ) (weather : WeatherData)
    (hm : month = 6 ∨ month = 7 ∨ month = 8 ∨ month = 9) :
    c.determineOptimalMode temperature humidity (clockAt hour month) weather =
      summerRule temperature humidity c.currentMode_ := by
  rw [determineOptimalMode_clockAt, getCurrentSeason_summer month hm]
  exact determineSummerMode_eq_rule c temperature humidity

theorem winter_decision_eq (c : AirConditionerController) (temperature humidity : F32)
    (hour month : ℤ) (weather : WeatherData) (hm : month = 12 ∨ month = 1 ∨ month = 2) :
    c.determineOptimalMode temperature humidity (clockAt hour month) weather =
      if isNightHour hour then (if extremeCold weather then ACMode.HEATING_18 else ACMode.OFF)
      else winterDayRule temperature c.currentMode_ := by
  rw [determineOptimalMode_clockAt, getCurrentSeason_winter month hm]
  exact determineWinterMode_eq_rule c temperature humidity hour weather

theorem comfortBandRule_range (temperature : F32) (previous : ACMode) :
    comfortBandRule temperature previous ≠ ACMode.DEHUMID_MINUS_1_5 ∧
      comfortBandRule temperature previous ≠ ACMode.HEATING_18 := by
  unfold comfortBandRule
  split_ifs <;> simp

theorem winterDayRule_above (temperature : F32) (previous : ACMode)
    (h : F32.gt temperature (lit 265 1) = true) :
    winterDayRule temperature previous = ACMode.OFF := by
  unfold winterDayRule
  have h1 := F32.lt_false_of_gt temperature _ (lit 242 1) h (by decide)
  have h2 := F32.lt_false_of_gt temperature _ (lit 245 1) h (by decide)
  rw [h1, h2]
  simp

theorem comfortBandRule_hold_below (temperature : F32)
    (h : F32.lt temperature (lit 245 1) = true) :
    comfortBandRule temperature ACMode.HEATING_23_5 = ACMode.HEATING_23_5 := by
  unfold comfortBandRule
  rw [h]
  split_ifs <;> simp_all

theorem comfortBandRule_release (temperature : F32) (previous : ACMode)
    (h : F32.ge temperature (lit 245 1) = true) :
    comfortBandRule temperature previous ≠ ACMode.HEATING_23_5 := by
  unfold comfortBandRule
  have h1 := F32.lt_false_of_ge temperature _ (lit 242 1) h (by decide)
  have h2 := F32.lt_false_of_ge temperature _ (lit 245 1) h (by decide)
  rw [h1, h2]
  split_ifs <;> simp_all

theorem winterDayRule_hold_below (temperature : F32)
    (h : F32.lt temperature (lit 245 1) = true) :
    winterDayRule temperature ACMode.HEATING_23_5 = ACMode.HEATING_23_5 := by
  unfold winterDayRule
  rw [h]
  simp

theorem winterDayRule_release (temperature : F32) (previous : ACMode)
    (h : F32.ge temperature (lit 245 1) = true) :
    winterDayRule temperature previous ≠ ACMode.HEATING_23_5 := by
  unfold winterDayRule
  have h1 := F32.lt_false_of_ge temperature _ (lit 242 1) h (by decide)
  have h2 := F32.lt_false_of_ge temperature _ (lit 245 1) h (by decide)
  rw [h1, h2]
  simp

theorem winterDayRule_range (temperature : F32) (previous : ACMode) :
    winterDayRule temperature previous = ACMode.HEATING_23_5 ∨
      winterDayRule temperature previous = ACMode.OFF := by
  unfold winterDayRule
  split_ifs <;> simp

/-! ### Transition executor -/

theorem setMode_same (c : AirConditionerController) (m : ACMode) (h : m = c.currentMode_) :
    c.setMode m = c := by
  unfold setMode
  rw [if_pos h]

theorem setMode_changed (c : AirConditionerController) (m : ACMode) (hm : m ≠ ACMode.NONE)
    (h : m ≠ c.currentMode_) :
    (c.setMode m).currentMode_ = m ∧
      (c.setMode m).sentFrames = c.sentFrames ++ [(c.setMode m).daikinAC_] ∧
      commandFor m (c.setMode m).daikinAC_ := by
  unfold setMode
  rw [if_neg h]
  have h2 : ¬ (m = ACMode.OFF ∧ c.currentMode_ = ACMode.OFF) := by
    rintro ⟨h1, h2⟩
    exact h (h1.trans h2.symm)
  rw [if_neg h2]
  cases m
  · exact absurd rfl hm
  all_goals
    simp [sendOff, sendHeating23_5, sendHeating18, sendCooling25, sendDehumidMinus1_5,
      daikinSend, commandFor]

theorem setMode_none (c : AirConditionerController) : c.setMode ACMode.NONE = c := by
  unfold setMode
  split_ifs <;> rfl

theorem setMode_currentMode (c : AirConditionerController) (m : ACMode)
    (hm : m ≠ ACMode.NONE) : (c.setMode m).currentMode_ = m := by
  by_cases h : m = c.currentMode_
  · rw [setMode_same c m h]; exact h.symm
  · exact (setMode_changed c m hm h).1

theorem setMode_twice (c : AirConditionerController) (m : ACMode) :
    (c.setMode m).setMode m = c.setMode m := by
  by_cases hm : m = ACMode.NONE
  · subst hm; rw [setMode_none, setMode_none]
  · exact setMode_same _ m (setMode_currentMode c m hm).symm

theorem setMode_length_le (c : AirConditionerController) (m : ACMode) :
    (c.setMode m).sentFrames.length ≤ c.sentFrames.length + 1 := by
  by_cases hm : m = ACMode.NONE
  · subst hm; rw [setMode_none]; omega
  · by_cases h : m = c.currentMode_
    · rw [setMode_same c m h]; omega
    · rw [(setMode_changed c m hm h).2.1]; simp

/-! ### Auto-stop scheduler -/

theorem isSummerSeason_iff (timeMgr : TimeManager) :
    timeMgr.isSummerSeason = true ↔
      (timeMgr.getCurrentMonth = 7 ∨ timeMgr.getCurrentMonth = 8 ∨
        timeMgr.getCurrentMonth = 9) := by
  unfold TimeManager.isSummerSeason
  simp only []
  split_ifs with h
  · simp; omega
  · simp; omega

theorem check_eq_tickRule (s : AutoStopController) (ac : AirConditionerController)
    (timeMgr : TimeManager) :
    ((s.check ac timeMgr).fired, (s.check ac timeMgr).scheduler.stoppedToday_,
        (s.check ac timeMgr).ac) =
      tickRule s ac timeMgr.getCurrentHour timeMgr.getCurrentMonth ∧
    (s.check ac timeMgr).scheduler.enabled_ = s.enabled_ ∧
    (s.check ac timeMgr).scheduler.stopHour_ = s.stopHour_ := by
  unfold AutoStopController.check tickRule
  simp only [isSummerSeason_iff]
  rcases s with ⟨stopHour, enabled, stopped, lastPrinted⟩
  cases enabled <;> cases stopped <;> simp <;> split_ifs <;> simp_all

theorem getCurrentHour_clockAt (hour month : ℤ) : (clockAt hour month).getCurrentHour = hour :=
  rfl

theorem getCurrentMonth_clockAt (hour month : ℤ) :
    (clockAt hour month).getCurrentMonth = month := by
  simp [clockAt, TimeManager.getCurrentMonth, TimeManager.getCurrentTime]


theorem check_clockAt (s : AutoStopController) (ac : AirConditionerController)
    (hour month : ℤ) :
    ((s.check ac (clockAt hour month)).fired,
        (s.check ac (clockAt hour month)).scheduler.stoppedToday_,
        (s.check ac (clockAt hour month)).ac) = tickRule s ac hour month ∧
    (s.check ac (clockAt hour month)).scheduler.enabled_ = s.enabled_ ∧
    (s.check ac (clockAt hour month)).scheduler.stopHour_ = s.stopHour_ := by
  have h := check_eq_tickRule s ac (clockAt hour month)
  rw [getCurrentHour_clockAt, getCurrentMonth_clockAt] at h
  exact h

theorem check_stopped_stays (s : AutoStopController) (ac : AirConditionerController)
    (hour month : ℤ) (hs : s.stoppedToday_ = true) (hh : hour ≠ 0)
    (hm : ¬ (month = 7 ∨ month = 8 ∨ month = 9)) :
    (s.check ac (clockAt hour month)).fired = false ∧
      (s.check ac (clockAt hour month)).scheduler.stoppedToday_ = true := by
  have h := (check_clockAt s ac hour month).1
  unfold tickRule at h
  rw [hs] at h
  split_ifs at h <;> simp_all

theorem check_fired_imp (s : AutoStopController) (ac : AirConditionerController)
    (hour month : ℤ) (hf : (s.check ac (clockAt hour month)).fired = true) :
    hour = s.stopHour_ ∧ (s.check ac (clockAt hour month)).scheduler.stoppedToday_ = true := by
  have h := (check_clockAt s ac hour month).1
  unfold tickRule at h
  rw [hf] at h
  split_ifs at h <;> simp_all

theorem runChecks_stopped_none (month : ℤ) (hm : ¬ (month = 7 ∨ month = 8 ∨ month = 9))
    (hours : List ℤ) :
    ∀ (s : AutoStopController) (ac : AirConditionerController), s.stoppedToday_ = true →
      (∀ h ∈ hours, h ≠ 0) →
      (s.runChecks ac (ticksAt month hours)).1.count true = 0 := by
  induction hours with
  | nil => intro s ac _ _; rfl
  | cons h rest ih =>
    intro s ac hs hall
    have h0 : h ≠ 0 := hall h (List.mem_cons_self h rest)
    obtain ⟨hf, hst⟩ := check_stopped_stays s ac h month hs h0 hm
    have hrest := ih (s.check ac (clockAt h month)).scheduler (s.check ac (clockAt h month)).ac
      hst (fun x hx => hall x (List.mem_cons_of_mem h hx))
    simp only [ticksAt, List.map_cons, AutoStopController.runChecks] at hrest ⊢
    rw [hf]
    simpa using hrest

theorem runChecks_at_most_once (month : ℤ) (hm : ¬ (month = 7 ∨ month = 8 ∨ month = 9))
    (hours : List ℤ) :
    ∀ (s : AutoStopController) (ac : AirConditionerController), 1 ≤ s.stopHour_ →
      hours.Pairwise (fun a b => a ≤ b) →
      (s.runChecks ac (ticksAt month hours)).1.count true ≤ 1 := by
  induction hours with
  | nil => intro s ac _ _; simp [ticksAt, AutoStopController.runChecks]
  | cons h rest ih =>
    intro s ac hstop hsorted
    rw [List.pairwise_cons] at hsorted
    cases hf : (s.check ac (clockAt h month)).fired with
    | false =>
      have hrest := ih (s.check ac (clockAt h month)).scheduler
        (s.check ac (clockAt h month)).ac
        (by rw [(check_clockAt s ac h month).2.2]; exact hstop) hsorted.2
      simp only [ticksAt, List.map_cons, AutoStopController.runChecks] at hrest ⊢
      rw [hf]
      simpa using hrest
    | true =>
      obtain ⟨heq, hst⟩ := check_fired_imp s ac h month hf
      have hrest := runChecks_stopped_none month hm rest
        (s.check ac (clockAt h month)).scheduler (s.check ac (clockAt h month)).ac hst
        (fun x hx => by have := hsorted.1 x hx; omega)
      simp only [ticksAt, List.map_cons, AutoStopController.runChecks] at hrest ⊢
      rw [hf]
      simp [hrest]

/-! ### Further lemmas on the decision, the commands and the scheduler -/

theorem summerRule_range (temperature humidity : F32) (previous : ACMode) :
    summerRule temperature humidity previous ≠ ACMode.HEATING_18 ∧
      summerRule temperature humidity previous ≠ ACMode.HEATING_23_5 := by
  unfold summerRule
  split_ifs <;> simp

theorem determineOptimalMode_unavailable (c : AirConditionerController)
    (temperature humidity : F32) (weather : WeatherData) :
    c.determineOptimalMode temperature humidity clockUnavailable weather = ACMode.OFF := rfl

theorem check_fired_setMode (s : AutoStopController) (ac : AirConditionerController)
    (timeMgr : TimeManager) (hf : (s.check ac timeMgr).fired = true) :
    (s.check ac timeMgr).ac = ac.setMode ACMode.OFF := by
  have h := (check_eq_tickRule s ac timeMgr).1
  unfold tickRule at h
  rw [hf] at h
  split_ifs at h <;> simp_all

theorem check_disabled (s : AutoStopController) (ac : AirConditionerController)
    (timeMgr : TimeManager) (he : s.enabled_ = false) :
    s.check ac timeMgr = { fired := false, scheduler := s, ac := ac } := by
  unfold AutoStopController.check
  simp [he]

theorem setMode_profile (c : AirConditionerController) (m : ACMode) (hm : m ≠ ACMode.NONE)
    (h : m ≠ c.currentMode_) : profileWith (lit 245 1) m (c.setMode m).daikinAC_ := by
  unfold setMode
  rw [if_neg h]
  have h2 : ¬ (m = ACMode.OFF ∧ c.currentMode_ = ACMode.OFF) := by
    rintro ⟨h1, h2⟩
    exact h (h1.trans h2.symm)
  rw [if_neg h2]
  cases m
  · exact absurd rfl hm
  all_goals
    simp [sendOff, sendHeating23_5, sendHeating18, sendCooling25, sendDehumidMinus1_5,
      daikinSend, profileWith]

theorem determineOptimalMode_congr (c₁ c₂ : AirConditionerController)
    (temperature humidity : F32) (timeMgr : TimeManager) (weather : WeatherData)
    (hprev : c₁.currentMode_ = c₂.currentMode_) :
    c₁.determineOptimalMode temperature humidity timeMgr weather =
      c₂.determineOptimalMode temperature humidity timeMgr weather := by
  unfold determineOptimalMode determineSpringMode determineSummerMode determineAutumnMode
    determineWinterMode
  rw [hprev]

/-! ### Stability of the decision and the scheduler's flag -/

theorem determineOptimalMode_ne_none (c : AirConditionerController) (temperature humidity : F32)
    (timeMgr : TimeManager) (weather : WeatherData) :
    c.determineOptimalMode temperature humidity timeMgr weather ≠ ACMode.NONE := by
  unfold determineOptimalMode
  cases timeMgr.getCurrentTime with
  | none => simp
  | some timeinfo =>
    simp only []
    cases getCurrentSeason (timeinfo.tm_mon + 1) <;>
      simp only [determineSpringMode, determineSummerMode, determineAutumnMode,
        determineWinterMode] <;>
      split_ifs <;> simp

theorem determineOptimalMode_self_or_base (c c₀ : AirConditionerController)
    (temperature humidity : F32) (timeMgr : TimeManager) (weather : WeatherData)
    (h₀ : c₀.currentMode_ = ACMode.NONE) :
    c.determineOptimalMode temperature humidity timeMgr weather = c.currentMode_ ∨
      c.determineOptimalMode temperature humidity timeMgr weather =
        c₀.determineOptimalMode temperature humidity timeMgr weather := by
  unfold determineOptimalMode
  cases timeMgr.getCurrentTime with
  | none => right; rfl
  | some timeinfo =>
    simp only []
    cases getCurrentSeason (timeinfo.tm_mon + 1) <;>
      simp only [determineSpringMode, determineSummerMode, determineAutumnMode,
        determineWinterMode, h₀] <;>
      split_ifs <;> simp_all

theorem determineOptimalMode_stable (c c' : AirConditionerController)
    (temperature humidity : F32) (timeMgr : TimeManager) (weather : WeatherData)
    (h : c'.currentMode_ = c.determineOptimalMode temperature humidity timeMgr weather) :
    c'.determineOptimalMode temperature humidity timeMgr weather =
      c.determineOptimalMode temperature humidity timeMgr weather := by
  have base : ({ c with currentMode_ := ACMode.NONE } : AirConditionerController).currentMode_ =
      ACMode.NONE := rfl
  rcases determineOptimalMode_self_or_base c _ temperature humidity timeMgr weather base
    with h1 | h1
  · exact determineOptimalMode_congr c' c _ _ _ _ (h.trans h1)
  · rcases determineOptimalMode_self_or_base c' _ temperature humidity timeMgr weather base
      with h2 | h2
    · rw [h2, h]
    · rw [h2, h1]

theorem loopControl_fixed (c : AirConditionerController) (sensorData : SensorData)
    (timeMgr : TimeManager) (weather : WeatherData) :
    loopControl (loopControl c sensorData timeMgr weather) sensorData timeMgr weather =
      loopControl c sensorData timeMgr weather := by
  unfold loopControl
  cases hv : sensorData.isValid
  · simp
  · simp only [Bool.not_true, Bool.false_eq_true, if_false]
    have hcur := setMode_currentMode c
      (c.determineOptimalMode sensorData.temperature sensorData.humidity timeMgr weather)
      (determineOptimalMode_ne_none c _ _ _ _)
    rw [determineOptimalMode_stable c _ _ _ _ _ hcur]
    exact setMode_same _ _ hcur.symm

theorem loopControlTimes_succ (n : ℕ) (c : AirConditionerController) (sensorData : SensorData)
    (timeMgr : TimeManager) (weather : WeatherData) :
    loopControlTimes (n + 1) c sensorData timeMgr weather =
      loopControl c sensorData timeMgr weather := by
  induction n generalizing c with
  | zero => rfl
  | succ k ih =>
    show loopControlTimes (k + 1) (loopControl c sensorData timeMgr weather) sensorData timeMgr
      weather = _
    rw [ih, loopControl_fixed]

theorem check_fired_stopped (s : AutoStopController) (ac : AirConditionerController)
    (timeMgr : TimeManager) (hf : (s.check ac timeMgr).fired = true) :
    (s.check ac timeMgr).scheduler.stoppedToday_ = true := by
  have h := (check_eq_tickRule s ac timeMgr).1
  unfold tickRule at h
  rw [hf] at h
  split_ifs at h <;> simp_all

theorem check_reset (s : AutoStopController) (ac : AirConditionerController)
    (timeMgr : TimeManager) (he : s.enabled_ = true) (hh : timeMgr.getCurrentHour ≠ -1)
    (hmo : timeMgr.getCurrentMonth ≠ -1)
    (hreset : timeMgr.getCurrentHour = 0 ∨ timeMgr.getCurrentMonth = 7 ∨
      timeMgr.getCurrentMonth = 8 ∨ timeMgr.getCurrentMonth = 9)
    (hf : (s.check ac timeMgr).fired = false) :
    (s.check ac timeMgr).scheduler.stoppedToday_ = false := by
  have h := (check_eq_tickRule s ac timeMgr).1
  unfold tickRule at h
  rw [hf, he] at h
  split_ifs at h <;> simp_all

theorem check_bypass_month (s : AutoStopController) (ac : AirConditionerController)
    (hour month : ℤ) (hm : month = 7 ∨ month = 8 ∨ month = 9) :
    (s.check ac (clockAt hour month)).fired = false := by
  have h := (check_clockAt s ac hour month).1
  unfold tickRule at h
  split_ifs at h <;> simp_all

theorem check_fires_at_stop_hour (s : AutoStopController) (ac : AirConditionerController)
    (hour month : ℤ) (he : s.enabled_ = true) (hs : s.stoppedToday_ = false)
    (hh : hour = s.stopHour_) (hclock : hour ≠ -1) (hmo : month ≠ -1)
    (hm : ¬ (month = 7 ∨ month = 8 ∨ month = 9)) :
    (s.check ac (clockAt hour month)).fired = true := by
  have h := (check_clockAt s ac hour month).1
  unfold tickRule at h
  rw [he, hs] at h
  split_ifs at h <;> simp_all

/-! ## Mode decision engine -/

/-- C1: in a Spring or Autumn month (3, 4, 5, 10, 11) `determineOptimalMode` returns Off at
Night (hour < 7 or hour >= 23) and in Daytime the first match of the comfort-band list
(`comfortBandRule`), for every temperature, humidity, forecast and previous mode;
`determineAutumnMode` equals `determineSpringMode` on the same inputs, and neither the decision
nor `determineSpringMode` ever is Dehumidify or Heat-Max. -/
theorem shoulder_season_decision (c : AirConditionerController) (temperature humidity : F32)
    (hour month : ℤ) (weather : WeatherData) (timeOfDay : TimeOfDay)
    (hm : month = 3 ∨ month = 4 ∨ month = 5 ∨ month = 10 ∨ month = 11) :
    c.determineOptimalMode temperature humidity (clockAt hour month) weather =
        (if isNightHour hour then ACMode.OFF else comfortBandRule temperature c.currentMode_) ∧
      c.determineAutumnMode temperature humidity timeOfDay =
        c.determineSpringMode temperature humidity timeOfDay ∧
      c.determineOptimalMode temperature humidity (clockAt hour month) weather ≠
        ACMode.DEHUMID_MINUS_1_5 ∧
      c.determineOptimalMode temperature humidity (clockAt hour month) weather ≠
        ACMode.HEATING_18 ∧
      c.determineSpringMode temperature humidity timeOfDay ≠ ACMode.DEHUMID_MINUS_1_5 ∧
      c.determineSpringMode temperature humidity timeOfDay ≠ ACMode.HEATING_18 := by
  have key := shoulder_decision_eq c temperature humidity hour month weather hm
  have hr := comfortBandRule_range temperature c.currentMode_
  refine ⟨key, rfl, ?_, ?_, ?_, ?_⟩
  · rw [key]; split_ifs
    · simp
    · exact hr.1
  · rw [key]; split_ifs
    · simp
    · exact hr.2
  · unfold determineSpringMode; split_ifs <;> simp
  · unfold determineSpringMode; split_ifs <;> simp

/-- April, noon, 24.0 degrees, previous mode Off: the decision is Heat-High. -/
theorem shoulder_season_decision_witness :
    ((4 : ℤ) = 3 ∨ (4 : ℤ) = 4 ∨ (4 : ℤ) = 5 ∨ (4 : ℤ) = 10 ∨ (4 : ℤ) = 11) ∧
      (controllerIn ACMode.OFF).determineOptimalMode (lit 240 1) (lit 500 1) (clockAt 12 4)
        noForecast = ACMode.HEATING_23_5 :=
  ⟨by decide,
    (shoulder_season_decision (controllerIn ACMode.OFF) (lit 240 1) (lit 500 1) 12 4 noForecast
      TimeOfDay.DAYTIME (by decide)).1.trans (by decide)⟩

/-- C2: in a Summer month (6, 7, 8, 9), at every hour, `determineOptimalMode` returns the first
match of the Summer list (`summerRule`); with previous mode Off, 27.0 degrees at 68 percent
gives Cool and 25.0 degrees at 65 percent gives Dehumidify. -/
theorem summer_decision (c : AirConditionerController) (temperature humidity : F32)
    (hour month : ℤ) (weather : WeatherData)
    (hm : month = 6 ∨ month = 7 ∨ month = 8 ∨ month = 9) :
    c.determineOptimalMode temperature humidity (clockAt hour month) weather =
        summerRule temperature humidity c.currentMode_ ∧
      (c.currentMode_ = ACMode.OFF →
        c.determineOptimalMode (lit 270 1) (lit 68 0) (clockAt hour month) weather =
          ACMode.COOLING_25) ∧
      (c.currentMode_ = ACMode.OFF →
        c.determineOptimalMode (lit 250 1) (lit 65 0) (clockAt hour month) weather =
          ACMode.DEHUMID_MINUS_1_5) := by
  refine ⟨summer_decision_eq c temperature humidity hour month weather hm, ?_, ?_⟩
  · intro hp
    rw [summer_decision_eq c _ _ hour month weather hm, hp]
    decide
  · intro hp
    rw [summer_decision_eq c _ _ hour month weather hm, hp]
    decide

/-- August, 3 o'clock at night, 27.0 degrees at 68 percent, previous mode Off: Cool. -/
theorem summer_decision_witness :
    ((8 : ℤ) = 6 ∨ (8 : ℤ) = 7 ∨ (8 : ℤ) = 8 ∨ (8 : ℤ) = 9) ∧
      (controllerIn ACMode.OFF).determineOptimalMode (lit 270 1) (lit 68 0) (clockAt 3 8)
        noForecast = ACMode.COOLING_25 :=
  ⟨by decide,
    (summer_decision (controllerIn ACMode.OFF) (lit 270 1) (lit 68 0) 3 8 noForecast
      (by decide)).1.trans (by decide)⟩

/-- C3: in a Winter month (12, 1, 2) `determineOptimalMode` returns Heat-Max at Night under an
extreme-cold forecast, Off at Night otherwise (whatever the temperature and humidity), and in
Daytime Heat-High when temperature < 24.2 or (previous Heat-High and temperature < 24.5),
otherwise Off; in particular Off for every daytime temperature above 26.5. -/
theorem winter_decision (c : AirConditionerController) (temperature humidity : F32)
    (hour month : ℤ) (weather : WeatherData) (hm : month = 12 ∨ month = 1 ∨ month = 2) :
    c.determineOptimalMode temperature humidity (clockAt hour month) weather =
        (if isNightHour hour then
          (if extremeCold weather then ACMode.HEATING_18 else ACMode.OFF)
        else winterDayRule temperature c.currentMode_) ∧
      (isNightHour hour → extremeCold weather →
        c.determineOptimalMode temperature humidity (clockAt hour month) weather =
          ACMode.HEATING_18) ∧
      (isNightHour hour → ¬ extremeCold weather →
        c.determineOptimalMode temperature humidity (clockAt hour month) weather =
          ACMode.OFF) ∧
      (¬ isNightHour hour → F32.gt temperature (lit 265 1) = true →
        c.determineOptimalMode temperature humidity (clockAt hour month) weather =
          ACMode.OFF) := by
  have key := winter_decision_eq c temperature humidity hour month weather hm
  refine ⟨key, ?_, ?_, ?_⟩
  · intro hn hc
    rw [key, if_pos hn, if_pos hc]
  · intro hn hc
    rw [key, if_pos hn, if_neg hc]
  · intro hn ht
    rw [key, if_neg hn]
    exact winterDayRule_above temperature c.currentMode_ ht

/-- January, 2 o'clock at night, forecast minimum -1.0, 5 degrees at 50 percent: Heat-Max. -/
theorem winter_decision_witness :
    ((1 : ℤ) = 12 ∨ (1 : ℤ) = 1 ∨ (1 : ℤ) = 2) ∧
      (controllerIn ACMode.OFF).determineOptimalMode (lit 5 0) (lit 50 0) (clockAt 2 1)
        (forecastMin (lit (-10) 1)) = ACMode.HEATING_18 :=
  ⟨by decide,
    (winter_decision (controllerIn ACMode.OFF) (lit 5 0) (lit 50 0) 2 1
      (forecastMin (lit (-10) 1)) (by decide)).1.trans (by decide)⟩

/-- C7: in a Winter month (12, 1, 2) `determineOptimalMode` returns neither Cool nor
Dehumidify, for every temperature, humidity, hour, forecast and previous mode. -/
theorem winter_never_cools (c : AirConditionerController) (temperature humidity : F32)
    (hour month : ℤ) (weather : WeatherData) (hm : month = 12 ∨ month = 1 ∨ month = 2) :
    c.determineOptimalMode temperature humidity (clockAt hour month) weather ≠
        ACMode.COOLING_25 ∧
      c.determineOptimalMode temperature humidity (clockAt hour month) weather ≠
        ACMode.DEHUMID_MINUS_1_5 := by
  rw [winter_decision_eq c temperature humidity hour month weather hm]
  rcases winterDayRule_range temperature c.currentMode_ with h | h <;>
    split_ifs <;> simp [h]

/-- December, 14 o'clock, 30.0 degrees at 80 percent, previous mode Cool: neither Cool nor
Dehumidify is decided. -/
theorem winter_never_cools_witness :
    ((12 : ℤ) = 12 ∨ (12 : ℤ) = 1 ∨ (12 : ℤ) = 2) ∧
      (controllerIn ACMode.COOLING_25).determineOptimalMode (lit 300 1) (lit 80 0)
          (clockAt 14 12) noForecast ≠ ACMode.COOLING_25 ∧
      (controllerIn ACMode.COOLING_25).determineOptimalMode (lit 300 1) (lit 80 0)
          (clockAt 14 12) noForecast ≠ ACMode.DEHUMID_MINUS_1_5 :=
  ⟨by decide,
    winter_never_cools (controllerIn ACMode.COOLING_25) (lit 300 1) (lit 80 0) 14 12 noForecast
      (by decide)⟩

/-- C10: with previous mode Heat-High in Spring, Autumn or Winter daytime, the decision is
Heat-High for every temperature below 24.5 (so for every temperature from 24.0 to 24.4) and is
not Heat-High for any temperature at or above 24.5 (so not at 24.6); the stop-heating point
`24.2f + 0.3f` is the binary32 value 24.5 exactly and the stop-cooling point `26.5f - 0.3f`
is the binary32 value `26.2f`. -/
theorem heating_hold_boundary (c : AirConditionerController) (temperature humidity : F32)
    (hour month : ℤ) (weather : WeatherData)
    (hprev : c.currentMode_ = ACMode.HEATING_23_5)
    (hm : month = 3 ∨ month = 4 ∨ month = 5 ∨ month = 10 ∨ month = 11 ∨
      month = 12 ∨ month = 1 ∨ month = 2)
    (hday : ¬ isNightHour hour) :
    (F32.lt temperature (lit 245 1) = true →
        c.determineOptimalMode temperature humidity (clockAt hour month) weather =
          ACMode.HEATING_23_5) ∧
      (F32.ge temperature (lit 245 1) = true →
        c.determineOptimalMode temperature humidity (clockAt hour month) weather ≠
          ACMode.HEATING_23_5) ∧
      (F32.le (lit 240 1) temperature = true → F32.le temperature (lit 244 1) = true →
        c.determineOptimalMode temperature humidity (clockAt hour month) weather =
          ACMode.HEATING_23_5) ∧
      c.determineOptimalMode (lit 246 1) humidity (clockAt hour month) weather ≠
        ACMode.HEATING_23_5 ∧
      Threshold.TEMP_LOWER_OFF = F32.add (lit 242 1) (lit 3 1) ∧
      F32.add (lit 242 1) (lit 3 1) = lit 245 1 ∧
      lit 245 1 = F32.fin (49 * 2 ^ 148) ∧
      Threshold.TEMP_UPPER_OFF = F32.sub (lit 265 1) (lit 3 1) ∧
      F32.sub (lit 265 1) (lit 3 1) = lit 262 1 := by
  have key : ∀ t : F32,
      (F32.lt t (lit 245 1) = true →
        c.determineOptimalMode t humidity (clockAt hour month) weather = ACMode.HEATING_23_5) ∧
      (F32.ge t (lit 245 1) = true →
        c.determineOptimalMode t humidity (clockAt hour month) weather ≠
          ACMode.HEATING_23_5) := by
    intro t
    have hsplit : (month = 3 ∨ month = 4 ∨ month = 5 ∨ month = 10 ∨ month = 11) ∨
        (month = 12 ∨ month = 1 ∨ month = 2) := by omega
    rcases hsplit with h | h
    · rw [shoulder_decision_eq c t humidity hour month weather h, if_neg hday, hprev]
      exact ⟨comfortBandRule_hold_below t, comfortBandRule_release t _⟩
    · rw [winter_decision_eq c t humidity hour month weather h, if_neg hday, hprev]
      exact ⟨winterDayRule_hold_below t, winterDayRule_release t _⟩
  refine ⟨(key temperature).1, (key temperature).2, ?_, ?_, rfl, ?_, ?_, rfl, ?_⟩
  · intro _ h2
    exact (key temperature).1 (F32.lt_of_le_of_lt temperature _ _ h2 (by decide))
  · exact (key (lit 246 1)).2 (by decide)
  · decide
  · decide
  · decide

/-- October, 10 o'clock, previous mode Heat-High: 24.4 degrees keeps Heat-High and 24.6
degrees does not. -/
theorem heating_hold_boundary_witness :
    (controllerIn ACMode.HEATING_23_5).currentMode_ = ACMode.HEATING_23_5 ∧
      ((10 : ℤ) = 3 ∨ (10 : ℤ) = 4 ∨ (10 : ℤ) = 5 ∨ (10 : ℤ) = 10 ∨ (10 : ℤ) = 11 ∨
        (10 : ℤ) = 12 ∨ (10 : ℤ) = 1 ∨ (10 : ℤ) = 2) ∧
      ¬ isNightHour 10 ∧
      (controllerIn ACMode.HEATING_23_5).determineOptimalMode (lit 244 1) (lit 50 0)
        (clockAt 10 10) noForecast = ACMode.HEATING_23_5 ∧
      (controllerIn ACMode.HEATING_23_5).determineOptimalMode (lit 246 1) (lit 50 0)
        (clockAt 10 10) noForecast ≠ ACMode.HEATING_23_5 :=
  ⟨rfl, by decide, by decide,
    (heating_hold_boundary (controllerIn ACMode.HEATING_23_5) (lit 244 1) (lit 50 0) 10 10
      noForecast rfl (by decide) (by decide)).1 (by decide),
    (heating_hold_boundary (controllerIn ACMode.HEATING_23_5) (lit 244 1) (lit 50 0) 10 10
      noForecast rfl (by decide) (by decide)).2.2.2.1⟩

/-! ## Mode transition executor -/

/-- C4: for a decided mode `m` among Off, Heat-High, Heat-Max, Cool, Dehumidify and every
believed state: when `m` differs from the believed state `setMode m` transmits exactly one
frame, the command of `m`, and the believed state becomes `m`; when `m` equals it nothing is
transmitted and the controller is unchanged.  So a transmission always changes the believed
state, and from the initial state `NONE` each of the five modes is transmitted. -/
theorem setMode_sends_iff_changed (c : AirConditionerController) (m : ACMode)
    (hm : m ≠ ACMode.NONE) :
    (m ≠ c.currentMode_ →
        (c.setMode m).currentMode_ = m ∧
        (c.setMode m).sentFrames = c.sentFrames ++ [(c.setMode m).daikinAC_] ∧
        commandFor m (c.setMode m).daikinAC_) ∧
      (m = c.currentMode_ → c.setMode m = c) ∧
      ((c.setMode m).sentFrames ≠ c.sentFrames →
        (c.setMode m).currentMode_ ≠ c.currentMode_) ∧
      (c.currentMode_ = ACMode.NONE →
        (c.setMode m).currentMode_ = m ∧
        (c.setMode m).sentFrames = c.sentFrames ++ [(c.setMode m).daikinAC_] ∧
        commandFor m (c.setMode m).daikinAC_) := by
  refine ⟨setMode_changed c m hm, setMode_same c m, ?_, ?_⟩
  · intro hsent hcur
    by_cases h : m = c.currentMode_
    · exact hsent (by rw [setMode_same c m h])
    · exact h ((setMode_changed c m hm h).1.symm.trans hcur)
  · intro hnone
    exact setMode_changed c m hm (by rw [hnone]; exact hm)

/-- From a fresh controller, `setMode(HEATING_23_5)` transmits one heating frame at 23.5. -/
theorem setMode_sends_iff_changed_witness :
    ACMode.HEATING_23_5 ≠ ACMode.NONE ∧
      ACMode.HEATING_23_5 ≠ freshController.currentMode_ ∧
      (freshController.setMode ACMode.HEATING_23_5).currentMode_ = ACMode.HEATING_23_5 ∧
      (freshController.setMode ACMode.HEATING_23_5).sentFrames =
        freshController.sentFrames ++
          [(freshController.setMode ACMode.HEATING_23_5).daikinAC_] ∧
      commandFor ACMode.HEATING_23_5 (freshController.setMode ACMode.HEATING_23_5).daikinAC_ :=
  ⟨by decide, by decide,
    (setMode_sends_iff_changed freshController ACMode.HEATING_23_5 (by decide)).1 (by decide)⟩

/-- C8: two successive `setMode m` calls, from any believed state and for any `m`: the second
call leaves the controller exactly as the first left it (so it transmits nothing), and the two
calls together transmit at most one frame. -/
theorem setMode_idempotent (c : AirConditionerController) (m : ACMode) :
    (c.setMode m).setMode m = c.setMode m ∧
      ((c.setMode m).setMode m).sentFrames = (c.setMode m).sentFrames ∧
      ((c.setMode m).setMode m).sentFrames.length ≤ c.sentFrames.length + 1 := by
  rw [setMode_twice]
  exact ⟨rfl, rfl, setMode_length_le c m⟩

/-- C9: `setMode(NONE)`, the one value that is none of the five modes, leaves the controller
as it was for every believed state: nothing is transmitted and the state is kept. -/
theorem setMode_unrecognised_noop (c : AirConditionerController) :
    c.setMode ACMode.NONE = c ∧
      (c.setMode ACMode.NONE).sentFrames = c.sentFrames ∧
      (c.setMode ACMode.NONE).currentMode_ = c.currentMode_ := by
  rw [setMode_none]
  exact ⟨rfl, rfl, rfl⟩

/-! ## Auto-stop scheduler -/

/-- C5: `AutoStopController::check`, read as `tick(hour, month)` with the hour and month the
clock reports (`-1` when unavailable), is the transition table `tickRule`; `enabled` and the
configured hour never change.  With configured hour 23 in month 1, ticks at 23, 23, 0 give
fired, not fired, not fired and leave `stoppedToday` false; in month 8 an enabled scheduler
fires at no hour and has `stoppedToday` false afterwards. -/
theorem check_transition_table (s : AutoStopController) (ac : AirConditionerController)
    (timeMgr : TimeManager) (hour : ℤ) :
    ((s.check ac timeMgr).fired, (s.check ac timeMgr).scheduler.stoppedToday_,
          (s.check ac timeMgr).ac) =
        tickRule s ac timeMgr.getCurrentHour timeMgr.getCurrentMonth ∧
      (s.check ac timeMgr).scheduler.enabled_ = s.enabled_ ∧
      (s.check ac timeMgr).scheduler.stopHour_ = s.stopHour_ ∧
      ((AutoStopController.init 23).runChecks ac (ticksAt 1 [23, 23, 0])).1 =
        [true, false, false] ∧
      ((AutoStopController.init 23).runChecks ac (ticksAt 1 [23, 23, 0])).2.1.stoppedToday_ =
        false ∧
      (s.enabled_ = true → hour ≠ -1 →
        (s.check ac (clockAt hour 8)).fired = false ∧
        (s.check ac (clockAt hour 8)).scheduler.stoppedToday_ = false) := by
  obtain ⟨h1, h2, h3⟩ := check_eq_tickRule s ac timeMgr
  refine ⟨h1, h2, h3, rfl, rfl, ?_⟩
  intro he hh
  have h := (check_clockAt s ac hour 8).1
  unfold tickRule at h
  rw [he] at h
  simp [hh] at h
  exact ⟨h.1, h.2.1⟩

/-- An enabled scheduler that already stopped today, ticked at 23 o'clock in August: it does
not fire and `stoppedToday` is cleared. -/
theorem check_transition_table_witness :
    ((AutoStopController.init 23).setEnabled true).enabled_ = true ∧ (23 : ℤ) ≠ -1 ∧
      (((AutoStopController.init 23).setEnabled true).check freshController
        (clockAt 23 8)).fired = false ∧
      (((AutoStopController.init 23).setEnabled true).check freshController
        (clockAt 23 8)).scheduler.stoppedToday_ = false :=
  ⟨rfl, by decide,
    (check_transition_table ((AutoStopController.init 23).setEnabled true) freshController
      (clockAt 23 8) 23).2.2.2.2.2 rfl (by decide)⟩

/-- C6 at configured hour 0: three ticks at hour 0 of one January day fire, reset the flag,
and fire again, so two ticks of one calendar day return fired. -/
theorem check_fires_twice_at_stop_hour_zero :
    ((AutoStopController.init 0).runChecks freshController (ticksAt 1 [0, 0, 0])).1 =
        [true, false, true] ∧
      ((AutoStopController.init 0).runChecks freshController
        (ticksAt 1 [0, 0, 0])).1.count true = 2 := by
  decide

/-- For a configured hour of at least 1, a month outside 7 to 9, any initial flags and any
sequence of ticks with non-decreasing hours in that month, at most one tick fires. -/
theorem check_at_most_once_stop_hour_pos (s : AutoStopController)
    (ac : AirConditionerController) (month : ℤ) (hours : List ℤ)
    (hm : ¬ (month = 7 ∨ month = 8 ∨ month = 9)) (hstop : 1 ≤ s.stopHour_)
    (hsorted : hours.Pairwise (fun a b => a ≤ b)) :
    (s.runChecks ac (ticksAt month hours)).1.count true ≤ 1 :=
  runChecks_at_most_once month hm hours s ac hstop hsorted

/-! ## Classification, forecast and driver -/

/-- C11: for every month 1..12, `getCurrentSeason` is Spring exactly for 3, 4, 5; Summer
exactly for 6, 7, 8, 9; Autumn exactly for 10, 11; Winter exactly for 12, 1, 2.  As the function
gives each month one season, the four month sets partition 1..12. -/
theorem season_partition (m : ℤ) (hlo : 1 ≤ m) (hhi : m ≤ 12) :
    (getCurrentSeason m = Season.SPRING ↔ m = 3 ∨ m = 4 ∨ m = 5) ∧
      (getCurrentSeason m = Season.SUMMER ↔ m = 6 ∨ m = 7 ∨ m = 8 ∨ m = 9) ∧
      (getCurrentSeason m = Season.AUTUMN ↔ m = 10 ∨ m = 11) ∧
      (getCurrentSeason m = Season.WINTER ↔ m = 12 ∨ m = 1 ∨ m = 2) := by
  interval_cases m <;> decide

/-- Month 10 is within 1..12 and is Autumn. -/
theorem season_partition_witness :
    (1 : ℤ) ≤ 10 ∧ (10 : ℤ) ≤ 12 ∧ getCurrentSeason 10 = Season.AUTUMN :=
  ⟨by decide, by decide,
    (season_partition 10 (by decide) (by decide)).2.2.1.mpr (Or.inl rfl)⟩

/-- C12: for every hour 0..23, `getTimeOfDay` is Daytime exactly when 7 <= h < 23 and Night
exactly when h = 23 or h < 7. -/
theorem time_of_day_partition (h : ℤ) (hlo : 0 ≤ h) (hhi : h ≤ 23) :
    (getTimeOfDay h = TimeOfDay.DAYTIME ↔ 7 ≤ h ∧ h < 23) ∧
      (getTimeOfDay h = TimeOfDay.NIGHT ↔ h = 23 ∨ h < 7) := by
  interval_cases h <;> decide

/-- Hour 23 is within 0..23 and is Night. -/
theorem time_of_day_partition_witness :
    (0 : ℤ) ≤ 23 ∧ (23 : ℤ) ≤ 23 ∧ getTimeOfDay 23 = TimeOfDay.NIGHT :=
  ⟨by decide, by decide,
    (time_of_day_partition 23 (by decide) (by decide)).2.mpr (Or.inl rfl)⟩

/-- C13: `isExtremeColdDay` is true exactly when the forecast is valid and its minimum
temperature is <= 0.0; it is false for every invalid forecast, in particular for the initial
forecast (not valid, minimum 0.0), and a Winter night with an invalid forecast decides Off. -/
theorem extreme_cold_requires_valid (c : AirConditionerController) (temperature humidity : F32)
    (hour month : ℤ) (weather : WeatherData) :
    (isExtremeColdDay weather = true ↔
        weather.isValid = true ∧ F32.le weather.tempMin (lit 0 1) = true) ∧
      (weather.isValid = false → isExtremeColdDay weather = false) ∧
      isExtremeColdDay noForecast = false ∧
      ((month = 12 ∨ month = 1 ∨ month = 2) → isNightHour hour → weather.isValid = false →
        c.determineOptimalMode temperature humidity (clockAt hour month) weather =
          ACMode.OFF) := by
  refine ⟨isExtremeColdDay_iff weather, ?_, by decide, ?_⟩
  · intro hv
    unfold isExtremeColdDay
    simp [hv]
  · intro hm hn hv
    rw [winter_decision_eq c temperature humidity hour month weather hm, if_pos hn]
    have : ¬ extremeCold weather := by
      unfold extremeCold
      simp [hv]
    rw [if_neg this]

/-- January, 2 o'clock at night, initial forecast, 5 degrees at 50 percent: Off. -/
theorem extreme_cold_requires_valid_witness :
    ((1 : ℤ) = 12 ∨ (1 : ℤ) = 1 ∨ (1 : ℤ) = 2) ∧ isNightHour 2 ∧ noForecast.isValid = false ∧
      freshController.determineOptimalMode (lit 5 0) (lit 50 0) (clockAt 2 1) noForecast =
        ACMode.OFF :=
  ⟨by decide, by decide, rfl,
    (extreme_cold_requires_valid freshController (lit 5 0) (lit 50 0) 2 1 noForecast).2.2.2
      (by decide) (by decide) rfl⟩

/-- C14: for every month 1..12 and every temperature, humidity, hour, forecast and previous
mode, `determineOptimalMode` returns Heat-Max exactly when the month is 12, 1 or 2, the hour is
Night and the forecast is valid with minimum temperature <= 0.0; with the clock unavailable it
does not return Heat-Max either. -/
theorem heat_max_iff_override (c : AirConditionerController) (temperature humidity : F32)
    (hour month : ℤ) (weather : WeatherData) (hlo : 1 ≤ month) (hhi : month ≤ 12) :
    (c.determineOptimalMode temperature humidity (clockAt hour month) weather =
        ACMode.HEATING_18 ↔
      (month = 12 ∨ month = 1 ∨ month = 2) ∧ isNightHour hour ∧
        (weather.isValid = true ∧ F32.le weather.tempMin (lit 0 1) = true)) ∧
      c.determineOptimalMode temperature humidity clockUnavailable weather ≠
        ACMode.HEATING_18 := by
  refine ⟨?_, by rw [determineOptimalMode_unavailable]; decide⟩
  have hsplit : (month = 3 ∨ month = 4 ∨ month = 5 ∨ month = 10 ∨ month = 11) ∨
      (month = 6 ∨ month = 7 ∨ month = 8 ∨ month = 9) ∨
      (month = 12 ∨ month = 1 ∨ month = 2) := by omega
  rcases hsplit with h | h | h
  · rw [shoulder_decision_eq c temperature humidity hour month weather h]
    have hr := (comfortBandRule_range temperature c.currentMode_).2
    constructor
    · intro hres
      split_ifs at hres
      exact absurd hres hr
    · rintro ⟨hw, _, _⟩
      omega
  · rw [summer_decision_eq c temperature humidity hour month weather h]
    constructor
    · intro hres
      exact absurd hres (summerRule_range temperature humidity c.currentMode_).1
    · rintro ⟨hw, _, _⟩
      omega
  · rw [winter_decision_eq c temperature humidity hour month weather h]
    have hr := winterDayRule_range temperature c.currentMode_
    constructor
    · intro hres
      split_ifs at hres with hn hc
      · exact ⟨h, hn, hc⟩
      · rcases hr with hr | hr <;> rw [hr] at hres <;> cases hres
    · rintro ⟨_, hn, hc⟩
      have hc' : extremeCold weather := hc
      rw [if_pos hn, if_pos hc']

/-- February, 23 o'clock, forecast minimum exactly 0.0, previous mode Cool: Heat-Max. -/
theorem heat_max_iff_override_witness :
    (1 : ℤ) ≤ 2 ∧ (2 : ℤ) ≤ 12 ∧
      (controllerIn ACMode.COOLING_25).determineOptimalMode (lit 300 1) (lit 50 0)
        (clockAt 23 2) (forecastMin (lit 0 1)) = ACMode.HEATING_18 :=
  ⟨by decide, by decide,
    (heat_max_iff_override (controllerIn ACMode.COOLING_25) (lit 300 1) (lit 50 0) 23 2
      (forecastMin (lit 0 1)) (by decide) (by decide)).1.mpr (by decide)⟩

/-- C15: whenever `AutoStopController::check` returns fired, the controller afterwards is the
result of `setMode(OFF)` and its believed state is Off, for every prior state. -/
theorem fired_forces_off (s : AutoStopController) (ac : AirConditionerController)
    (timeMgr : TimeManager) (hf : (s.check ac timeMgr).fired = true) :
    (s.check ac timeMgr).ac.currentMode_ = ACMode.OFF ∧
      (s.check ac timeMgr).ac = ac.setMode ACMode.OFF := by
  have h := check_fired_setMode s ac timeMgr hf
  refine ⟨?_, h⟩
  rw [h]
  exact setMode_currentMode ac ACMode.OFF (by decide)

/-- Stop hour 23 reached in January with believed state Cool: fired, state Off. -/
theorem fired_forces_off_witness :
    ((AutoStopController.init 23).check (controllerIn ACMode.COOLING_25)
        (clockAt 23 1)).fired = true ∧
      ((AutoStopController.init 23).check (controllerIn ACMode.COOLING_25)
        (clockAt 23 1)).ac.currentMode_ = ACMode.OFF :=
  ⟨by decide,
    (fired_forces_off (AutoStopController.init 23) (controllerIn ACMode.COOLING_25)
      (clockAt 23 1) (by decide)).1⟩

/-- C16: with `enabled` false, `check` returns not fired at every clock reading and leaves the
scheduler (all its fields) and the controller (state and transmissions) as they were;
`setEnabled` sets `enabled` and keeps every other field. -/
theorem disabled_check_is_noop (s : AutoStopController) (ac : AirConditionerController)
    (timeMgr : TimeManager) (enabled : Bool) (he : s.enabled_ = false) :
    (s.check ac timeMgr).fired = false ∧
      (s.check ac timeMgr).scheduler = s ∧
      (s.check ac timeMgr).ac = ac ∧
      (s.setEnabled enabled).enabled_ = enabled ∧
      (s.setEnabled enabled).stoppedToday_ = s.stoppedToday_ ∧
      (s.setEnabled enabled).stopHour_ = s.stopHour_ ∧
      (s.setEnabled enabled).lastPrintedHour_ = s.lastPrintedHour_ := by
  rw [check_disabled s ac timeMgr he]
  exact ⟨rfl, rfl, rfl, rfl, rfl, rfl, rfl⟩

/-- A disabled scheduler at its stop hour does not fire and leaves the controller alone. -/
theorem disabled_check_is_noop_witness :
    ((AutoStopController.init 23).setEnabled false).enabled_ = false ∧
      (((AutoStopController.init 23).setEnabled false).check (controllerIn ACMode.COOLING_25)
        (clockAt 23 1)).fired = false ∧
      (((AutoStopController.init 23).setEnabled false).check (controllerIn ACMode.COOLING_25)
        (clockAt 23 1)).ac = controllerIn ACMode.COOLING_25 :=
  ⟨rfl,
    (disabled_check_is_noop ((AutoStopController.init 23).setEnabled false)
      (controllerIn ACMode.COOLING_25) (clockAt 23 1) true rfl).1,
    (disabled_check_is_noop ((AutoStopController.init 23).setEnabled false)
      (controllerIn ACMode.COOLING_25) (clockAt 23 1) true rfl).2.2.1⟩

/-- C17 as stated fails: clock unavailable, valid reading, believed state Heat-High: the cycle
transmits one frame and the believed state becomes Off. -/
theorem clock_unavailable_cycle_sends_off :
    (loopControl (controllerIn ACMode.HEATING_23_5) (reading (lit 200 1) (lit 50 0))
        clockUnavailable noForecast).currentMode_ = ACMode.OFF ∧
      (loopControl (controllerIn ACMode.HEATING_23_5) (reading (lit 200 1) (lit 50 0))
        clockUnavailable noForecast).sentFrames.length =
        (controllerIn ACMode.HEATING_23_5).sentFrames.length + 1 ∧
      ¬ ((loopControl (controllerIn ACMode.HEATING_23_5) (reading (lit 200 1) (lit 50 0))
          clockUnavailable noForecast).sentFrames =
          (controllerIn ACMode.HEATING_23_5).sentFrames ∧
        (loopControl (controllerIn ACMode.HEATING_23_5) (reading (lit 200 1) (lit 50 0))
          clockUnavailable noForecast).currentMode_ =
          (controllerIn ACMode.HEATING_23_5).currentMode_) := by
  decide

/-- C17, amended: with the clock unavailable `determineOptimalMode` returns its default Off and
the cycle acts on it.  With a valid reading: if the believed state is Off nothing is sent and
nothing changes; otherwise exactly one frame, a power-off, is sent and the believed state
becomes Off.  With an invalid reading the cycle changes nothing. -/
theorem clock_unavailable_cycle_defaults_off (c : AirConditionerController)
    (sensorData : SensorData) (weather : WeatherData) :
    (sensorData.isValid = false → loopControl c sensorData clockUnavailable weather = c) ∧
      (sensorData.isValid = true → c.currentMode_ = ACMode.OFF →
        loopControl c sensorData clockUnavailable weather = c) ∧
      (sensorData.isValid = true → c.currentMode_ ≠ ACMode.OFF →
        (loopControl c sensorData clockUnavailable weather).currentMode_ = ACMode.OFF ∧
        (loopControl c sensorData clockUnavailable weather).sentFrames =
          c.sentFrames ++ [(loopControl c sensorData clockUnavailable weather).daikinAC_] ∧
        (loopControl c sensorData clockUnavailable weather).daikinAC_.power = false) := by
  refine ⟨?_, ?_, ?_⟩
  · intro hv
    simp [loopControl, hv]
  · intro hv hoff
    simp only [loopControl, hv, determineOptimalMode_unavailable]
    exact setMode_same c ACMode.OFF hoff.symm
  · intro hv hne
    simp only [loopControl, hv, determineOptimalMode_unavailable]
    have h := setMode_changed c ACMode.OFF (by decide) (fun h => hne h.symm)
    exact ⟨h.1, h.2.1, h.2.2⟩

/-- Clock unavailable, believed state Cool, valid reading: the state becomes Off. -/
theorem clock_unavailable_cycle_defaults_off_witness :
    (reading (lit 200 1) (lit 50 0)).isValid = true ∧
      (controllerIn ACMode.COOLING_25).currentMode_ ≠ ACMode.OFF ∧
      (loopControl (controllerIn ACMode.COOLING_25) (reading (lit 200 1) (lit 50 0))
        clockUnavailable noForecast).currentMode_ = ACMode.OFF :=
  ⟨rfl, by decide,
    ((clock_unavailable_cycle_defaults_off (controllerIn ACMode.COOLING_25)
      (reading (lit 200 1) (lit 50 0)) noForecast).2.2 rfl (by decide)).1⟩

/-- C18 as stated fails for Dehumidify: the transmitted frame carries 24.5, not
25 - 1.5 = 23.5. -/
theorem dehumidify_frame_is_not_23_5 :
    (freshController.setMode ACMode.DEHUMID_MINUS_1_5).sentFrames =
        [(freshController.setMode ACMode.DEHUMID_MINUS_1_5).daikinAC_] ∧
      (freshController.setMode ACMode.DEHUMID_MINUS_1_5).daikinAC_.temp = lit 245 1 ∧
      F32.sub (lit 25 0) (lit 15 1) = lit 235 1 ∧
      ¬ profileWith (F32.sub (lit 25 0) (lit 15 1)) ACMode.DEHUMID_MINUS_1_5
        (freshController.setMode ACMode.DEHUMID_MINUS_1_5).daikinAC_ := by
  decide

/-- C18, amended: the frame transmitted for a mode is power-off for Off, heating at 23.5 for
Heat-High, heating at 18 for Heat-Max, cooling at 25 for Cool, and dry mode at 24.5
(26 - 1.5) for Dehumidify; every running command has automatic fan and both swings off. -/
theorem command_profiles (c : AirConditionerController) (m : ACMode) (hm : m ≠ ACMode.NONE)
    (hne : m ≠ c.currentMode_) :
    (c.setMode m).sentFrames = c.sentFrames ++ [(c.setMode m).daikinAC_] ∧
      profileWith (lit 245 1) m (c.setMode m).daikinAC_ ∧
      F32.sub (lit 26 0) (lit 15 1) = lit 245 1 :=
  ⟨(setMode_changed c m hm hne).2.1, setMode_profile c m hm hne, by decide⟩

/-- The Dehumidify frame sent from a fresh controller is dry mode at 24.5. -/
theorem command_profiles_witness :
    ACMode.DEHUMID_MINUS_1_5 ≠ ACMode.NONE ∧
      ACMode.DEHUMID_MINUS_1_5 ≠ freshController.currentMode_ ∧
      profileWith (lit 245 1) ACMode.DEHUMID_MINUS_1_5
        (freshController.setMode ACMode.DEHUMID_MINUS_1_5).daikinAC_ :=
  ⟨by decide, by decide,
    (command_profiles freshController ACMode.DEHUMID_MINUS_1_5 (by decide) (by decide)).2.1⟩

/-- C19: two decisions with the same temperature, humidity and previous mode, months of the
same season, hours of the same time of day and forecasts of the same extreme-cold value are
equal, whatever else differs in the controllers, clocks and forecasts. -/
theorem decision_depends_on_context_only (c₁ c₂ : AirConditionerController)
    (temperature humidity : F32) (hour₁ month₁ hour₂ month₂ : ℤ) (weather₁ weather₂ : WeatherData)
    (hprev : c₁.currentMode_ = c₂.currentMode_)
    (hseason : getCurrentSeason month₁ = getCurrentSeason month₂)
    (htime : getTimeOfDay hour₁ = getTimeOfDay hour₂)
    (hcold : isExtremeColdDay weather₁ = isExtremeColdDay weather₂) :
    c₁.determineOptimalMode temperature humidity (clockAt hour₁ month₁) weather₁ =
      c₂.determineOptimalMode temperature humidity (clockAt hour₂ month₂) weather₂ := by
  rw [determineOptimalMode_congr c₁ c₂ _ _ _ _ hprev, determineOptimalMode_clockAt,
    determineOptimalMode_clockAt, hseason, htime, hcold]

/-- June 8 o'clock and September 22 o'clock, two controllers both believing Cool, two forecasts
that are not extreme cold: the same decision at 26.4 degrees. -/
theorem decision_depends_on_context_only_witness :
    (controllerIn ACMode.COOLING_25).currentMode_ =
        ({ freshController.sendOff with currentMode_ := ACMode.COOLING_25 }).currentMode_ ∧
      getCurrentSeason 6 = getCurrentSeason 9 ∧
      getTimeOfDay 8 = getTimeOfDay 22 ∧
      isExtremeColdDay noForecast = isExtremeColdDay (forecastMin (lit 50 1)) ∧
      (controllerIn ACMode.COOLING_25).determineOptimalMode (lit 264 1) (lit 70 0)
          (clockAt 8 6) noForecast =
        ({ freshController.sendOff with currentMode_ := ACMode.COOLING_25 }).determineOptimalMode
          (lit 264 1) (lit 70 0) (clockAt 22 9) (forecastMin (lit 50 1)) :=
  ⟨rfl, by decide, by decide, by decide,
    decision_depends_on_context_only _ _ (lit 264 1) (lit 70 0) 8 6 22 9 noForecast
      (forecastMin (lit 50 1)) rfl (by decide) (by decide) (by decide)⟩

/-- C20: for every temperature, humidity, clock reading, forecast and previous mode `p`, the
decision with previous mode `p` is `p` itself or the decision on the same inputs with
previous mode `NONE`. -/
theorem hold_only_extends (c : AirConditionerController) (temperature humidity : F32)
    (timeMgr : TimeManager) (weather : WeatherData) :
    c.determineOptimalMode temperature humidity timeMgr weather = c.currentMode_ ∨
      c.determineOptimalMode temperature humidity timeMgr weather =
        ({ c with currentMode_ := ACMode.NONE }).determineOptimalMode temperature humidity
          timeMgr weather := by
  unfold determineOptimalMode
  cases timeMgr.getCurrentTime with
  | none => right; rfl
  | some timeinfo =>
    simp only []
    cases getCurrentSeason (timeinfo.tm_mon + 1) <;>
      simp only [determineSpringMode, determineSummerMode, determineAutumnMode,
        determineWinterMode] <;>
      split_ifs <;> simp_all

/-! ## Lifecycle of the flag, feedback stability, bypass months -/

/-- C21 as stated fails for a disabled scheduler: after firing at 23 o'clock and being
disabled, a tick at hour 0 does not fire and `stoppedToday` stays true. -/
theorem disabled_tick_keeps_stopped_flag :
    ((((AutoStopController.init 23).check freshController (clockAt 23 1)).scheduler.setEnabled
        false).check freshController (clockAt 0 1)).fired = false ∧
      ((((AutoStopController.init 23).check freshController (clockAt 23 1)).scheduler.setEnabled
        false).check freshController (clockAt 0 1)).scheduler.stoppedToday_ = true ∧
      ¬ (((((AutoStopController.init 23).check freshController
          (clockAt 23 1)).scheduler.setEnabled false).check freshController
          (clockAt 0 1)).fired = false →
        ((((AutoStopController.init 23).check freshController
          (clockAt 23 1)).scheduler.setEnabled false).check freshController
          (clockAt 0 1)).scheduler.stoppedToday_ = false) := by
  decide

/-- C21, amended: for every scheduler state and clock reading, a tick that fires leaves
`stoppedToday` true; for an enabled scheduler with the clock available, a tick at hour 0 or in
a month 7, 8, 9 that does not fire leaves `stoppedToday` false; a disabled scheduler keeps
`stoppedToday` as it was. -/
theorem stopped_flag_lifecycle (s : AutoStopController) (ac : AirConditionerController)
    (timeMgr : TimeManager) :
    ((s.check ac timeMgr).fired = true →
        (s.check ac timeMgr).scheduler.stoppedToday_ = true) ∧
      (s.enabled_ = true → timeMgr.getCurrentHour ≠ -1 → timeMgr.getCurrentMonth ≠ -1 →
        (timeMgr.getCurrentHour = 0 ∨ timeMgr.getCurrentMonth = 7 ∨
          timeMgr.getCurrentMonth = 8 ∨ timeMgr.getCurrentMonth = 9) →
        (s.check ac timeMgr).fired = false →
        (s.check ac timeMgr).scheduler.stoppedToday_ = false) ∧
      (s.enabled_ = false →
        (s.check ac timeMgr).scheduler.stoppedToday_ = s.stoppedToday_) := by
  refine ⟨check_fired_stopped s ac timeMgr, check_reset s ac timeMgr, ?_⟩
  intro he
  rw [check_disabled s ac timeMgr he]

/-- An enabled scheduler that stopped at 23 o'clock, ticked at hour 0 of a January day: it does
not fire and `stoppedToday` is cleared. -/
theorem stopped_flag_lifecycle_witness :
    ((AutoStopController.init 23).check freshController (clockAt 23 1)).scheduler.enabled_ =
        true ∧
      ((AutoStopController.init 23).check freshController
        (clockAt 23 1)).scheduler.stoppedToday_ = true ∧
      (clockAt 0 1).getCurrentHour ≠ -1 ∧ (clockAt 0 1).getCurrentMonth ≠ -1 ∧
      ((((AutoStopController.init 23).check freshController (clockAt 23 1)).scheduler).check
        freshController (clockAt 0 1)).fired = false ∧
      ((((AutoStopController.init 23).check freshController (clockAt 23 1)).scheduler).check
        freshController (clockAt 0 1)).scheduler.stoppedToday_ = false :=
  ⟨by decide, by decide, by decide, by decide, by decide,
    (stopped_flag_lifecycle
      ((AutoStopController.init 23).check freshController (clockAt 23 1)).scheduler
      freshController (clockAt 0 1)).2.1 (by decide) (by decide) (by decide)
      (Or.inl (by decide)) (by decide)⟩

/-- C22: the mode decided with previous mode `p`, fed back as the previous mode on the same
inputs, is decided again; hence on unchanged inputs the controller after any number `n + 1` of
driver cycles is the controller after the first cycle, with the same transmitted frames: no
command is sent after the first cycle. -/
theorem decision_stable_under_feedback (c : AirConditionerController)
    (temperature humidity : F32) (timeMgr : TimeManager) (weather : WeatherData)
    (sensorData : SensorData) (n : ℕ) :
    ({ c with currentMode_ := c.determineOptimalMode temperature humidity timeMgr weather } :
          AirConditionerController).determineOptimalMode temperature humidity timeMgr weather =
        c.determineOptimalMode temperature humidity timeMgr weather ∧
      loopControlTimes (n + 1) c sensorData timeMgr weather =
        loopControl c sensorData timeMgr weather ∧
      (loopControlTimes (n + 1) c sensorData timeMgr weather).sentFrames =
        (loopControl c sensorData timeMgr weather).sentFrames := by
  refine ⟨determineOptimalMode_stable c _ temperature humidity timeMgr weather rfl, ?_, ?_⟩
  · exact loopControlTimes_succ n c sensorData timeMgr weather
  · rw [loopControlTimes_succ n c sensorData timeMgr weather]

/-- C23: every bypass month of the scheduler (`isSummerSeason`, months 7 to 9) is a Summer month
of the decision engine, and month 6 is a Summer month, decided by the Summer list at every
hour, that is not a bypass month: there an enabled scheduler with `stoppedToday` false fires at
its configured hour and leaves the believed state Off; in months 7, 8, 9 it never fires. -/
theorem bypass_months_strict_subset (s : AutoStopController) (ac c : AirConditionerController)
    (temperature humidity : F32) (weather : WeatherData) (hour month : ℤ) :
    ((clockAt hour month).isSummerSeason = true → getCurrentSeason month = Season.SUMMER) ∧
      getCurrentSeason 6 = Season.SUMMER ∧
      (clockAt hour 6).isSummerSeason = false ∧
      c.determineOptimalMode temperature humidity (clockAt hour 6) weather =
        summerRule temperature humidity c.currentMode_ ∧
      (s.enabled_ = true → s.stoppedToday_ = false → hour = s.stopHour_ → hour ≠ -1 →
        (s.check ac (clockAt hour 6)).fired = true ∧
        (s.check ac (clockAt hour 6)).ac = ac.setMode ACMode.OFF ∧
        (s.check ac (clockAt hour 6)).ac.currentMode_ = ACMode.OFF) ∧
      ((month = 7 ∨ month = 8 ∨ month = 9) →
        (s.check ac (clockAt hour month)).fired = false) := by
  refine ⟨?_, by decide, ?_, ?_, ?_, check_bypass_month s ac hour month⟩
  · intro hsum
    rw [isSummerSeason_iff, getCurrentMonth_clockAt] at hsum
    exact getCurrentSeason_summer month (Or.inr hsum)
  · cases hb : (clockAt hour 6).isSummerSeason with
    | false => rfl
    | true =>
      rw [isSummerSeason_iff, getCurrentMonth_clockAt] at hb
      omega
  · exact summer_decision_eq c temperature humidity hour 6 weather (Or.inl rfl)
  · intro he hs hh hclock
    have hf := check_fires_at_stop_hour s ac hour 6 he hs hh hclock (by decide) (by decide)
    have hac := check_fired_setMode s ac (clockAt hour 6) hf
    refine ⟨hf, hac, ?_⟩
    rw [hac]
    exact setMode_currentMode ac ACMode.OFF (by decide)

/-- June, stop hour 23, believed state Cool: the scheduler fires and the state becomes Off. -/
theorem bypass_months_strict_subset_witness :
    (AutoStopController.init 23).enabled_ = true ∧
      (AutoStopController.init 23).stoppedToday_ = false ∧
      (23 : ℤ) = (AutoStopController.init 23).stopHour_ ∧ (23 : ℤ) ≠ -1 ∧
      ((AutoStopController.init 23).check (controllerIn ACMode.COOLING_25)
        (clockAt 23 6)).fired = true ∧
      ((AutoStopController.init 23).check (controllerIn ACMode.COOLING_25)
        (clockAt 23 6)).ac.currentMode_ = ACMode.OFF :=
  ⟨rfl, rfl, rfl, by decide,
    ((bypass_months_strict_subset (AutoStopController.init 23) (controllerIn ACMode.COOLING_25)
      freshController (lit 270 1) (lit 50 0) noForecast 23 6).2.2.2.2.1 rfl rfl rfl
      (by decide)).1,
    ((bypass_months_strict_subset (AutoStopController.init 23) (controllerIn ACMode.COOLING_25)
      freshController (lit 270 1) (lit 50 0) noForecast 23 6).2.2.2.2.1 rfl rfl rfl
      (by decide)).2.2⟩

end DaikinControl
